import Mathlib

/-!
Shallow embedding of the schema-compatibility shim of the `mycatholic`
repository, together with theorems settling the frozen claims about it.

The embedding covers three variants of the retry shim:

* namespace `Radar`       — `src/src/app/(main)/radar/page.tsx`
* namespace `RadarDetail` — `src/src/app/(main)/radar/[id]/page.tsx`
* namespace `Script`      — `src/unnamed/part_000` (bound 10) and
  `src/scripts/smoke-radar-invite-two-users.mjs` (bound 12); the two files
  share classifier and loop bodies verbatim, differing only in the attempt
  bound, so they share one embedding parameterised by the bound.

JavaScript strings are Lean `String`s; a JS value occurring in a request
payload is a `JsVal`; a payload (`Record<string, unknown>`) is an
association list with the JS object operations (`in`, `delete`,
assignment, member read) made explicit.  The remote store is an oracle
`Nat → DbReq → SBResp`: the `Nat` counts the requests issued inside one
logical operation, so a mock can answer "in sequence"; each embedded
function returns its source result together with the list of requests it
issued, which is the observable trace of the network effects.
-/

/-! ## Strings: `toLowerCase`/`includes` and the column-name regexes -/

/-- `leadsWith n l` is true when `n` is an initial segment of `l`. -/
def leadsWith : List Char → List Char → Bool
  | [], _ => true
  | _ :: _, [] => false
  | a :: as, b :: bs => a == b && leadsWith as bs

/-- `hasSub n l` is true when `n` occurs contiguously inside `l`. -/
def hasSub (needle : List Char) : List Char → Bool
  | [] => needle.isEmpty
  | c :: cs => leadsWith needle (c :: cs) || hasSub needle cs

/-- JS `haystack.includes(needle)` on strings. -/
def strIncludes (hay needle : String) : Bool :=
  hasSub needle.toList hay.toList

/-- JS `s.toLowerCase()` (per-character lowering; the classified messages
are ASCII). -/
def toLowerStr (s : String) : String :=
  ⟨s.data.map Char.toLower⟩

/-- The characters matched by `\s` in a JavaScript regular expression. -/
def isJsSpace (c : Char) : Bool :=
  c.toNat == 0x20 || c.toNat == 0x09 || c.toNat == 0x0A || c.toNat == 0x0B ||
  c.toNat == 0x0C || c.toNat == 0x0D || c.toNat == 0xA0 || c.toNat == 0x1680 ||
  (0x2000 ≤ c.toNat && c.toNat ≤ 0x200A) || c.toNat == 0x2028 ||
  c.toNat == 0x2029 || c.toNat == 0x202F || c.toNat == 0x205F ||
  c.toNat == 0x3000 || c.toNat == 0xFEFF

/-- Case-insensitive literal match: drops `lit` from the front of `l`
(comparing lowercased characters) and returns the rest, or `none`. -/
def dropLitCI : List Char → List Char → Option (List Char)
  | [], l => some l
  | _ :: _, [] => none
  | p :: ps, c :: cs => if p.toLower == c.toLower then dropLitCI ps cs else none

/-- One attempt of `/column\s+q([^q]+)q/i` at the head of `l`, for a fixed
quote character `q`.  `\s+` and `[^q]+` are greedy, and since the quote is
neither a whitespace character nor matched by `[^q]`, maximal munch agrees
with the backtracking semantics. -/
def tryColumnQuoteAt (q : Char) (l : List Char) : Option String :=
  match dropLitCI "column".toList l with
  | none => none
  | some r1 =>
    let ws := r1.takeWhile isJsSpace
    let r2 := r1.dropWhile isJsSpace
    if ws.isEmpty then none
    else
      match r2 with
      | [] => none
      | c :: r3 =>
        if c == q then
          let cap := r3.takeWhile (fun d => d != q)
          let r4 := r3.dropWhile (fun d => d != q)
          if cap.isEmpty then none
          else
            match r4 with
            | [] => none
            | c2 :: _ => if c2 == q then some (String.mk cap) else none
        else none

/-- One attempt of `/could not find the ['"]([^'"]+)['"] column/i` at the
head of `l`. -/
def tryCacheColumnAt (l : List Char) : Option String :=
  match dropLitCI "could not find the ".toList l with
  | none => none
  | some r1 =>
    match r1 with
    | [] => none
    | c :: r2 =>
      if c == '"' || c == '\'' then
        let cap := r2.takeWhile (fun d => d != '"' && d != '\'')
        let r3 := r2.dropWhile (fun d => d != '"' && d != '\'')
        if cap.isEmpty then none
        else
          match r3 with
          | [] => none
          | c2 :: r4 =>
            if (c2 == '"' || c2 == '\'') && (dropLitCI " column".toList r4).isSome
            then some (String.mk cap) else none
      else none

/-- Leftmost match: try `f` at every suffix, left to right. -/
def scanFirst (f : List Char → Option String) : List Char → Option String
  | [] => none
  | c :: cs =>
    match f (c :: cs) with
    | some s => some s
    | none => scanFirst f cs

/-- `extractMissingColumnName` — identical source text in
`radar/page.tsx`, `radar/[id]/page.tsx`, `part_000` and the smoke script
(the latter two first project `error.message`): try
`/column\s+"([^"]+)"/i`, then `/column\s+'([^']+)'/i`, then
`/could not find the ['"]([^'"]+)['"] column/i`. -/
def extractMissingColumnName (message : String) : Option String :=
  match scanFirst (tryColumnQuoteAt '"') message.toList with
  | some s => some s
  | none =>
    match scanFirst (tryColumnQuoteAt '\'') message.toList with
    | some s => some s
    | none => scanFirst tryCacheColumnAt message.toList

/-! ## JS values, payloads and the store interface -/

/-- The JavaScript values that occur in the shim's request payloads.
`obj` covers the one nested object literal in scope (the notification
`data:` field), whose own fields are all strings. -/
inductive JsVal where
  | s (v : String)
  | b (v : Bool)
  | n (v : Int)
  | null
  | undef
  | obj (fields : List (String × String))
deriving DecidableEq, Repr

/-- JS truthiness of a `JsVal`. -/
def JsVal.truthy : JsVal → Bool
  | .s v => v != ""
  | .b v => v
  | .n v => v != 0
  | .null => false
  | .undef => false
  | .obj _ => true

/-- `v.toString()` for the value kinds above (never called on
`null`/`undefined` in the embedded code: optional chaining guards it). -/
def JsVal.toStr : JsVal → String
  | .s v => v
  | .b true => "true"
  | .b false => "false"
  | .n v => toString v
  | .null => "null"
  | .undef => "undefined"
  | .obj _ => "[object Object]"

/-- A request payload: a JS object as an association list (unique keys in
all payloads the code builds). -/
abbrev Payload := List (String × JsVal)

/-- JS property read `w[k]` (as an `Option`; absent key = `none`). -/
def lookupKey (w : Payload) (k : String) : Option JsVal :=
  (w.find? (fun p => p.1 == k)).map (·.2)

/-- JS `k in w`. -/
def hasKey (w : Payload) (k : String) : Bool :=
  w.any (fun p => p.1 == k)

/-- JS `delete w[k]`. -/
def deleteKey (w : Payload) (k : String) : Payload :=
  w.filter (fun p => p.1 != k)

/-- JS assignment `w[k] = v` (replace in place, or append if absent). -/
def setKey (w : Payload) (k : String) (v : JsVal) : Payload :=
  if hasKey w k then w.map (fun p => if p.1 == k then (k, v) else p)
  else w ++ [(k, v)]

/-- `x?.toString()`: `none` when the receiver is absent, `null` or
`undefined` (optional chaining short-circuits). -/
def jsOptToString : Option JsVal → Option String
  | none => none
  | some .null => none
  | some .undef => none
  | some v => some v.toStr

/-- JS `a || b` on strings (empty string is falsy). -/
def jsOrStr (a b : String) : String :=
  if a == "" then b else a

/-- A PostgREST error object: the shim reads `message` and (in the
scripts) `details`. -/
structure PgError where
  message : String
  details : Option String
deriving DecidableEq, Repr

/-- A response of the query layer: a row (or `null`) and an error (or
`null`). -/
structure SBResp where
  data : Option Payload
  error : Option PgError
deriving DecidableEq, Repr

/-- A request issued to the query layer by the embedded functions. -/
inductive DbReq where
  | insert (table : String) (body : Payload) (sel : Option String)
  | upsert (table : String) (body : Payload) (onConflict : String)
  | update (table : String) (body : Payload) (matchers : Payload)
deriving DecidableEq, Repr

/-- The remote store as an oracle: response to the `i`-th request issued
during one logical operation. -/
abbrev Server := Nat → DbReq → SBResp

/-! ## Error classifiers of `radar/page.tsx` (namespace `Radar`) -/

namespace Radar

/-- `isMissingColumnError` from `radar/page.tsx`. -/
def isMissingColumnError (message : String) : Bool :=
  let lower := toLowerStr message
  strIncludes lower "42703" ||
  strIncludes lower "does not exist" ||
  (strIncludes lower "could not find" && strIncludes lower "column")

/-- `isMissingRelationError` from `radar/page.tsx`. -/
def isMissingRelationError (message : String) : Bool :=
  let lower := toLowerStr message
  strIncludes lower "42p01" ||
  (strIncludes lower "relation" && strIncludes lower "does not exist") ||
  (strIncludes lower "table" && strIncludes lower "does not exist") ||
  strIncludes lower "could not find the table" ||
  (strIncludes lower "schema cache" &&
    (strIncludes lower "table" || strIncludes lower "relation"))

/-- `isDuplicateError` from `radar/page.tsx`. -/
def isDuplicateError (message : String) : Bool :=
  let lower := toLowerStr message
  strIncludes lower "23505" || strIncludes lower "duplicate key"

/-- `isPermissionError` from `radar/page.tsx`: note that
`not authenticated` is NOT among its signals there. -/
def isPermissionError (message : String) : Bool :=
  let lower := toLowerStr message
  strIncludes lower "42501" ||
  strIncludes lower "permission denied" ||
  strIncludes lower "row-level security"

/-- `isFunctionMissingError` from `radar/page.tsx`. -/
def isFunctionMissingError (message : String) : Bool :=
  let lower := toLowerStr message
  strIncludes lower "could not find the function" ||
  strIncludes lower "does not exist"

/-- `isNotAuthenticatedError` from `radar/page.tsx`. -/
def isNotAuthenticatedError (message : String) : Bool :=
  strIncludes (toLowerStr message) "not authenticated"

/-- `isAmbiguousReferenceError` from `radar/page.tsx`. -/
def isAmbiguousReferenceError (message : String) : Bool :=
  let lower := toLowerStr message
  strIncludes lower "42702" || strIncludes lower "is ambiguous"

/-- `shouldFallbackToFinishedStatus` from `radar/page.tsx`. -/
def shouldFallbackToFinishedStatus (message : String) : Bool :=
  let lower := toLowerStr message
  strIncludes lower "archived" &&
  (strIncludes lower "invalid input value" ||
   strIncludes lower "enum" ||
   strIncludes lower "check constraint")

/-! ### `insertWithColumnFallback` of `radar/page.tsx` (lines 533–583) -/

/-- The error field of the insert result: either the raw query-layer
error passed through, or the `{ message: ... }` object the loop
synthesizes when the attempt bound is exhausted. -/
inductive InsError where
  | server (e : PgError)
  | synthesized (message : String)
deriving DecidableEq, Repr

/-- The `message` property of either error shape. -/
def InsError.message : InsError → String
  | .server e => e.message
  | .synthesized m => m

/-- The result record `{ data, error, duplicate }` of
`insertWithColumnFallback` in `radar/page.tsx`. -/
structure InsOut where
  data : Option Payload
  error : Option InsError
  duplicate : Bool
deriving DecidableEq, Repr

/-- The retry loop of `insertWithColumnFallback` (`radar/page.tsx`),
with `fuel` remaining attempts and `ctr` the index of the next request.
Returns the result together with the requests issued. -/
def insertGo (server : Server) (table : String) (sel : Option String) :
    Nat → Nat → Payload → InsOut × List DbReq
  | 0, _, _ =>
    ({ data := none,
       error := some (.synthesized
         ("Gagal insert ke " ++ table ++ " setelah beberapa percobaan")),
       duplicate := false }, [])
  | fuel + 1, ctr, working =>
    let req : DbReq := .insert table working sel
    let resp := server ctr req
    match resp.error with
    | none => ({ data := resp.data, error := none, duplicate := false }, [req])
    | some e =>
      if isDuplicateError e.message then
        ({ data := resp.data, error := none, duplicate := true }, [req])
      else
        match extractMissingColumnName e.message with
        | some col =>
          if hasKey working col && isMissingColumnError e.message then
            let rest := insertGo server table sel fuel (ctr + 1) (deleteKey working col)
            (rest.1, req :: rest.2)
          else ({ data := none, error := some (.server e), duplicate := false }, [req])
        | none => ({ data := none, error := some (.server e), duplicate := false }, [req])

/-- `insertWithColumnFallback` from `radar/page.tsx`: clone the payload
and run the loop for at most 8 attempts.  `sel` is `options?.select`. -/
def insertWithColumnFallback (server : Server) (table : String)
    (payload : Payload) (sel : Option String) : InsOut × List DbReq :=
  insertGo server table sel 8 0 payload

end Radar

/-! ## The node scripts (`src/unnamed/part_000`, bound 10, and
`src/scripts/smoke-radar-invite-two-users.mjs`, bound 12).  Classifier
and loop bodies are shared verbatim between the two files. -/

namespace Script

/-- `normalizeError`: `` `${error.message} ${error.details || ''}` ``
lowercased, or `''` for a null error. -/
def normalizeError : Option PgError → String
  | none => ""
  | some e => toLowerStr (e.message ++ " " ++ (e.details.getD ""))

/-- `isMissingColumnError` from the scripts. -/
def isMissingColumnError (error : Option PgError) : Bool :=
  let msg := normalizeError error
  strIncludes msg "42703" ||
  (strIncludes msg "column" && strIncludes msg "does not exist") ||
  (strIncludes msg "could not find" && strIncludes msg "column")

/-- `isMissingRelationError` from the scripts. -/
def isMissingRelationError (error : Option PgError) : Bool :=
  let msg := normalizeError error
  strIncludes msg "42p01" ||
  (strIncludes msg "relation" && strIncludes msg "does not exist") ||
  (strIncludes msg "table" && strIncludes msg "does not exist") ||
  strIncludes msg "could not find the table"

/-- `isPermissionError` from the scripts: here `not authenticated` IS one
of the signals. -/
def isPermissionError (error : Option PgError) : Bool :=
  let msg := normalizeError error
  strIncludes msg "42501" ||
  strIncludes msg "permission denied" ||
  strIncludes msg "row-level security" ||
  strIncludes msg "not authenticated"

/-- `isEnumConstraintError` from the scripts. -/
def isEnumConstraintError (error : Option PgError) : Bool :=
  let msg := normalizeError error
  strIncludes msg "invalid input value for enum" || strIncludes msg "check constraint"

/-- `extractMissingColumnName` from the scripts: `error?.message || ''`
fed to the shared regexes. -/
def extractColName (error : Option PgError) : Option String :=
  extractMissingColumnName (match error with | none => "" | some e => e.message)

/-- The result of the scripts' `insertWithColumnFallback`: a record
`{ ok, data?, table, missing?, permission?, error? }` (absent flags are
`false`, absent fields `none`). -/
structure InsOut where
  ok : Bool
  missing : Bool
  permission : Bool
  data : Option Payload
  table : String
  error : Option Radar.InsError
deriving DecidableEq, Repr

/-- The retry loop shared by the scripts' `insertWithColumnFallback`
(`part_000` runs it with fuel 10, the smoke script with fuel 12). -/
def insertGo (server : Server) (table : String) (sel : Option String) :
    Nat → Nat → Payload → InsOut × List DbReq
  | 0, _, _ =>
    ({ ok := false, missing := false, permission := false, data := none,
       table := table,
       error := some (.synthesized
         ("Gagal insert " ++ table ++ " setelah beberapa percobaan.")) }, [])
  | fuel + 1, ctr, working =>
    let req : DbReq := .insert table working sel
    let resp := server ctr req
    match resp.error with
    | none =>
      ({ ok := true, missing := false, permission := false,
         data := resp.data, table := table, error := none }, [req])
    | some e =>
      if isMissingRelationError (some e) then
        ({ ok := false, missing := true, permission := false, data := none,
           table := table, error := some (.server e) }, [req])
      else if isPermissionError (some e) then
        ({ ok := false, missing := false, permission := true, data := none,
           table := table, error := some (.server e) }, [req])
      else if isMissingColumnError (some e) then
        match extractColName (some e) with
        | some col =>
          if hasKey working col then
            let rest := insertGo server table sel fuel (ctr + 1) (deleteKey working col)
            (rest.1, req :: rest.2)
          else
            ({ ok := false, missing := false, permission := false, data := none,
               table := table, error := some (.server e) }, [req])
        | none =>
          ({ ok := false, missing := false, permission := false, data := none,
             table := table, error := some (.server e) }, [req])
      else
        ({ ok := false, missing := false, permission := false, data := none,
           table := table, error := some (.server e) }, [req])

/-- `insertWithColumnFallback` from `src/unnamed/part_000`
(`selectColumns = 'id'` by default; 10 attempts). -/
def insertWithColumnFallback (server : Server) (table : String)
    (payload : Payload) (sel : Option String) : InsOut × List DbReq :=
  insertGo server table sel 10 0 payload

end Script

namespace Smoke

/-- `insertWithColumnFallback` from the smoke script: same body as
`part_000`'s, with a 12-attempt bound. -/
def insertWithColumnFallback (server : Server) (table : String)
    (payload : Payload) (sel : Option String) : Script.InsOut × List DbReq :=
  Script.insertGo server table sel 12 0 payload

end Smoke

/-! ## `radar/[id]/page.tsx` (namespace `RadarDetail`).  Its classifiers
take `unknown` and first apply `readErrorMessage`, which is the identity
on the strings they are fed in the functions embedded here, so they are
modelled on `String` directly. -/

namespace RadarDetail

/-- `isMissingColumnError` from `radar/[id]/page.tsx`. -/
def isMissingColumnError (message : String) : Bool :=
  let lower := toLowerStr message
  strIncludes lower "42703" ||
  strIncludes lower "does not exist" ||
  (strIncludes lower "could not find" && strIncludes lower "column")

/-- `isMissingRelationError` from `radar/[id]/page.tsx`. -/
def isMissingRelationError (message : String) : Bool :=
  let lower := toLowerStr message
  strIncludes lower "42p01" ||
  (strIncludes lower "relation" && strIncludes lower "does not exist") ||
  (strIncludes lower "table" && strIncludes lower "does not exist") ||
  strIncludes lower "could not find the table" ||
  (strIncludes lower "schema cache" &&
    (strIncludes lower "table" || strIncludes lower "relation"))

/-- `isPermissionError` from `radar/[id]/page.tsx`. -/
def isPermissionError (message : String) : Bool :=
  let lower := toLowerStr message
  strIncludes lower "42501" ||
  strIncludes lower "permission denied" ||
  strIncludes lower "row-level security"

/-- The result `{ error }` of the update/insert shims of
`radar/[id]/page.tsx`. -/
structure ShimOut where
  error : Option Radar.InsError
deriving DecidableEq, Repr

/-- The retry loop of `updateWithColumnFallback`
(`radar/[id]/page.tsx`, lines 296–323): update with the working payload,
filtered by the (never-stripped) matchers. -/
def updateGo (server : Server) (table : String) (matchers : Payload) :
    Nat → Nat → Payload → ShimOut × List DbReq
  | 0, _, _ =>
    ({ error := some (.synthesized ("Gagal update " ++ table)) }, [])
  | fuel + 1, ctr, working =>
    let req : DbReq := .update table working matchers
    let resp := server ctr req
    match resp.error with
    | none => ({ error := none }, [req])
    | some e =>
      match extractMissingColumnName e.message with
      | some col =>
        if hasKey working col && isMissingColumnError e.message then
          let rest := updateGo server table matchers fuel (ctr + 1) (deleteKey working col)
          (rest.1, req :: rest.2)
        else ({ error := some (.server e) }, [req])
      | none => ({ error := some (.server e) }, [req])

/-- `updateWithColumnFallback` from `radar/[id]/page.tsx`: 8 attempts. -/
def updateWithColumnFallback (server : Server) (table : String)
    (payload : Payload) (matchers : Payload) : ShimOut × List DbReq :=
  updateGo server table matchers 8 0 payload

/-- The retry loop of `insertWithColumnFallback`
(`radar/[id]/page.tsx`, lines 325–350): plain insert, or upsert when
`options?.onConflict` is given. -/
def insertGo (server : Server) (table : String) (onConflict : Option String) :
    Nat → Nat → Payload → ShimOut × List DbReq
  | 0, _, _ =>
    ({ error := some (.synthesized ("Gagal insert/upsert " ++ table)) }, [])
  | fuel + 1, ctr, working =>
    let req : DbReq :=
      match onConflict with
      | some oc => .upsert table working oc
      | none => .insert table working none
    let resp := server ctr req
    match resp.error with
    | none => ({ error := none }, [req])
    | some e =>
      match extractMissingColumnName e.message with
      | some col =>
        if hasKey working col && isMissingColumnError e.message then
          let rest := insertGo server table onConflict fuel (ctr + 1) (deleteKey working col)
          (rest.1, req :: rest.2)
        else ({ error := some (.server e) }, [req])
      | none => ({ error := some (.server e) }, [req])

/-- `insertWithColumnFallback` from `radar/[id]/page.tsx`: 8 attempts. -/
def insertWithColumnFallback (server : Server) (table : String)
    (payload : Payload) (onConflict : Option String) : ShimOut × List DbReq :=
  insertGo server table onConflict 8 0 payload

end RadarDetail

/-! ## Higher-level operations of `radar/page.tsx` -/

/-- The two schema generations (`type RadarSource = 'legacy' | 'v2'`). -/
inductive RadarSource where
  | legacy
  | v2
deriving DecidableEq, Repr

/-- JS `s.toUpperCase()` (per-character, ASCII messages). -/
def toUpperStr (s : String) : String :=
  ⟨s.data.map Char.toUpper⟩

/-- The `data` field of an RPC response: an array of rows, a single row
object, or `null`. -/
inductive RpcData where
  | arr (rows : List Payload)
  | obj (row : Payload)
  | nil
deriving DecidableEq, Repr

/-- `Array.isArray(rpc.data) ? rpc.data[0] : rpc.data`. -/
def RpcData.raw : RpcData → Option Payload
  | .arr rows => rows.head?
  | .obj row => some row
  | .nil => none

/-- An RPC response. -/
structure RpcResp where
  data : RpcData
  error : Option PgError
deriving DecidableEq, Repr

/-- `raw?.status?.toString().toUpperCase()` from the RPC success path of
`joinRadarEvent`. -/
def rpcStatus (d : RpcData) : Option String :=
  (jsOptToString (d.raw.bind (fun row => lookupKey row "status"))).map toUpperStr

namespace Radar

/-- `e?.message` of the insert-result error field, `''` when absent
(JS `undefined` read through `||`). -/
def errMsgOf : Option InsError → String
  | some e => e.message
  | none => ""

/-- `!r.error && r.data?.id` — the success test `createRadarEvent`
applies to an insert result. -/
def insertOkWithId (r : InsOut) : Bool :=
  r.error == none &&
    (match r.data with
     | some row => (match lookupKey row "id" with
                    | some v => v.truthy
                    | none => false)
     | none => false)

/-- `r.data.id.toString()` (only read after `insertOkWithId`). -/
def insertedId (r : InsOut) : String :=
  match r.data with
  | some row => (match lookupKey row "id" with
                 | some v => v.toStr
                 | none => "undefined")
  | none => "undefined"

/-- The retry loop of `setCheckOutNow` (`radar/page.tsx`, lines
1945–1991): update the active check-in row to `ARCHIVED`, stripping
missing columns, substituting `FINISHED` once on an
archived-enum/check violation, and throwing on permission or
unclassified errors.  `throw` is the `.error` constructor. -/
def setCheckOutGo (server : Server) (table idv userId : String) :
    Nat → Nat → Payload → Except String Unit × List DbReq
  | 0, _, _ => (.error "Gagal check-out sekarang.", [])
  | fuel + 1, ctr, working =>
    let req : DbReq := .update table working [("id", .s idv), ("user_id", .s userId)]
    let resp := server ctr req
    match resp.error with
    | none => (.ok (), [req])
    | some e =>
      let del :=
        match extractMissingColumnName e.message with
        | some col =>
          if hasKey working col && isMissingColumnError e.message then some col else none
        | none => none
      match del with
      | some col =>
        let rest := setCheckOutGo server table idv userId fuel (ctr + 1) (deleteKey working col)
        (rest.1, req :: rest.2)
      | none =>
        if lookupKey working "status" == some (.s "ARCHIVED") &&
            shouldFallbackToFinishedStatus e.message then
          let rest := setCheckOutGo server table idv userId fuel (ctr + 1)
            (setKey working "status" (.s "FINISHED"))
          (rest.1, req :: rest.2)
        else if isPermissionError e.message then
          (.error "Tidak punya izin check-out pada data check-in ini.", [req])
        else
          (.error e.message, [req])

/-- `setCheckOutNow` from `radar/page.tsx`: 8 attempts on the payload
`{ status: 'ARCHIVED', archived_at: nowIso, updated_at: nowIso }`
(`nowIso` is the `Date` call's result, passed in as a parameter). -/
def setCheckOutNow (server : Server) (userId table idv nowIso : String) :
    Except String Unit × List DbReq :=
  setCheckOutGo server table idv userId 8 0
    [("status", .s "ARCHIVED"), ("archived_at", .s nowIso), ("updated_at", .s nowIso)]

/-- The legacy `radar_events` payload built by `createRadarEvent`. -/
def legacyEventPayload (userId churchId : String) (churchName : Option String)
    (title description startsAtIso : String) (maxParticipants : Option Int)
    (allowMemberInvite requireHostApproval : Bool)
    (massScheduleId : Option String) : Payload :=
  [("title", .s title),
   ("description", .s description),
   ("church_id", .s churchId),
   ("church_name", .s (jsOrStr (churchName.getD "") "Gereja")),
   ("event_time", .s startsAtIso),
   ("creator_id", .s userId),
   ("visibility", .s "PUBLIC"),
   ("status", .s "PUBLISHED"),
   ("allow_member_invite", .b allowMemberInvite),
   ("require_host_approval", .b requireHostApproval),
   ("max_participants", match maxParticipants with | some k => .n k | none => .undef)]
  ++ (match massScheduleId with
      | some s => if s != "" then [("schedule_id", .s s), ("mass_schedule_id", .s s)] else []
      | none => [])

/-- The `radar_events_v2` payload built by `createRadarEvent`. -/
def v2EventPayload (userId churchId : String)
    (title description startsAtIso endsAtIso : String) (maxParticipants : Option Int)
    (allowMemberInvite requireHostApproval : Bool)
    (massScheduleId : Option String) : Payload :=
  [("title", .s title),
   ("description", .s description),
   ("church_id", .s churchId),
   ("creator_id", .s userId),
   ("event_starts_at_utc", .s startsAtIso),
   ("event_ends_at_utc", .s endsAtIso),
   ("status", .s "PUBLISHED"),
   ("allow_member_invite", .b allowMemberInvite),
   ("require_host_approval", .b requireHostApproval),
   ("join_mode", .s (if requireHostApproval then "APPROVAL" else "OPEN")),
   ("max_participants", match maxParticipants with | some k => .n k | none => .undef)]
  ++ (match massScheduleId with
      | some s => if s != "" then [("mass_schedule_id", .s s), ("schedule_id", .s s)] else []
      | none => [])

/-- The HOST participant row `createRadarEvent` inserts after the
event insert succeeds. -/
def hostParticipantPayload (radarId userId : String) : Payload :=
  [("radar_id", .s radarId), ("user_id", .s userId),
   ("role", .s "HOST"), ("status", .s "JOINED")]

/-- `createRadarEvent` from `radar/page.tsx` (lines 1260–1356): insert
the legacy `radar_events` row and, on success, the HOST participant row
into `radar_participants`; otherwise insert into `radar_events_v2` and,
on success, the HOST participant row into `radar_participants_v2`;
otherwise throw.  `endsAtIso` stands for the computed
`event_ends_at_utc` (90 minutes past `startsAtIso`, via the `Date`
library). -/
def createRadarEvent (server : Server)
    (userId churchId : String) (churchName : Option String)
    (title description startsAtIso endsAtIso : String)
    (maxParticipants : Option Int)
    (allowMemberInvite requireHostApproval : Bool)
    (massScheduleId : Option String) : Except String String × List DbReq :=
  let legacyCreated := insertGo server "radar_events" (some "id") 8 0
    (legacyEventPayload userId churchId churchName title description startsAtIso
      maxParticipants allowMemberInvite requireHostApproval massScheduleId)
  if insertOkWithId legacyCreated.1 then
    let idStr := insertedId legacyCreated.1
    let part := insertGo server "radar_participants" none 8 legacyCreated.2.length
      (hostParticipantPayload idStr userId)
    (.ok idStr, legacyCreated.2 ++ part.2)
  else
    let v2Insert := insertGo server "radar_events_v2" (some "id") 8 legacyCreated.2.length
      (v2EventPayload userId churchId title description startsAtIso endsAtIso
        maxParticipants allowMemberInvite requireHostApproval massScheduleId)
    if insertOkWithId v2Insert.1 then
      let idStr := insertedId v2Insert.1
      let part := insertGo server "radar_participants_v2" none 8
        (legacyCreated.2.length + v2Insert.2.length)
        (hostParticipantPayload idStr userId)
      (.ok idStr, legacyCreated.2 ++ v2Insert.2 ++ part.2)
    else
      (.error (jsOrStr (errMsgOf legacyCreated.1.error)
        (jsOrStr (errMsgOf v2Insert.1.error) "Gagal membuat radar")),
       legacyCreated.2 ++ v2Insert.2)

/-- The participant table matching an event generation
(`primaryTable` in `joinRadarEvent`). -/
def participantTableOf : RadarSource → String
  | .v2 => "radar_participants_v2"
  | .legacy => "radar_participants"

/-- The participant table of the opposite generation (`secondaryTable`
in `joinRadarEvent`). -/
def otherParticipantTableOf : RadarSource → String
  | .v2 => "radar_participants"
  | .legacy => "radar_participants_v2"

/-- The MEMBER participant row `joinRadarEvent` inserts on its
direct-insert fallback path. -/
def joinParticipantPayload (radarId userId status : String) : Payload :=
  [("radar_id", .s radarId), ("user_id", .s userId),
   ("role", .s "MEMBER"), ("status", .s status)]

/-- `joinRadarEvent` from `radar/page.tsx` (lines 1626–1720).  The RPC
response (`radar_v2_join_event` or `join_radar_event`, by generation) and
the two policy selects are passed in as the responses the query layer
would give; the participant inserts go through the oracle.  The
direct-insert fallback runs when the RPC error is function-missing,
permission, not-authenticated or ambiguous-reference. -/
def joinRadarEvent (rpcResp : RpcResp) (policyResp policyFallbackResp : SBResp)
    (server : Server) (radarId userId : String) (source : RadarSource) :
    Except String String × List DbReq :=
  let afterRpc : Except String String × List DbReq :=
    let eventPolicyPair : Option Payload × Option PgError :=
      match policyResp.error with
      | some e =>
        if isMissingColumnError e.message then
          (policyFallbackResp.data, policyFallbackResp.error)
        else (policyResp.data, some e)
      | none => (policyResp.data, none)
    match eventPolicyPair.2 with
    | some e2 =>
      if !(isPermissionError e2.message) then (.error e2.message, [])
      else joinDirect eventPolicyPair.1
    | none => joinDirect eventPolicyPair.1
  match rpcResp.error with
  | none =>
    (.ok (if rpcStatus rpcResp.data == some "PENDING" then "PENDING" else "JOINED"), [])
  | some e =>
    if !(isFunctionMissingError e.message) && !(isPermissionError e.message) &&
        !(isNotAuthenticatedError e.message) then
      if !(isAmbiguousReferenceError e.message) then (.error e.message, [])
      else afterRpc
    else afterRpc
where
  joinDirect (eventPolicy : Option Payload) : Except String String × List DbReq :=
    let fallbackMembershipStatus : String :=
      if (eventPolicy.bind (fun row => lookupKey row "require_host_approval"))
          == some (.b true) then "PENDING" else "JOINED"
    let pPayload := joinParticipantPayload radarId userId fallbackMembershipStatus
    let r1 := insertGo server (participantTableOf source) none 8 0 pPayload
    if r1.1.error == none then (.ok fallbackMembershipStatus, r1.2)
    else
      let r2 := insertGo server (otherParticipantTableOf source) none 8 r1.2.length pPayload
      if r2.1.error == none then (.ok fallbackMembershipStatus, r1.2 ++ r2.2)
      else
        (.error "Gagal bergabung ke radar. Cek kebijakan akses radar di Supabase.",
         r1.2 ++ r2.2)

end Radar

/-! ## `archiveCheckInsByUser` from `src/unnamed/part_000` (lines 128–172) -/

namespace Script

/-- Result of `archiveCheckInsByUser`: `{ ok, skipped?, permission?,
error? }`. -/
structure ArchiveOut where
  ok : Bool
  skipped : Bool
  permission : Bool
  error : Option Radar.InsError
deriving DecidableEq, Repr

/-- The retry loop of `archiveCheckInsByUser`: archive all ACTIVE
check-ins of a user, substituting `FINISHED` for `ARCHIVED` once on an
enum/check-constraint violation. -/
def archiveGo (server : Server) (table userId : String) :
    Nat → Nat → Payload → ArchiveOut × List DbReq
  | 0, _, _ =>
    ({ ok := false, skipped := false, permission := false,
       error := some (.synthesized ("Gagal mengarsipkan " ++ table ++ ".")) }, [])
  | fuel + 1, ctr, working =>
    let req : DbReq := .update table working
      [("user_id", .s userId), ("status", .s "ACTIVE")]
    let resp := server ctr req
    match resp.error with
    | none => ({ ok := true, skipped := false, permission := false, error := none }, [req])
    | some e =>
      if isMissingRelationError (some e) then
        ({ ok := true, skipped := true, permission := false, error := none }, [req])
      else if isPermissionError (some e) then
        ({ ok := false, skipped := false, permission := true,
           error := some (.server e) }, [req])
      else if lookupKey working "status" == some (.s "ARCHIVED") &&
          isEnumConstraintError (some e) then
        let rest := archiveGo server table userId fuel (ctr + 1)
          (setKey working "status" (.s "FINISHED"))
        (rest.1, req :: rest.2)
      else
        let del :=
          match extractColName (some e) with
          | some col =>
            if isMissingColumnError (some e) && hasKey working col then some col else none
          | none => none
        match del with
        | some col =>
          let rest := archiveGo server table userId fuel (ctr + 1) (deleteKey working col)
          (rest.1, req :: rest.2)
        | none =>
          ({ ok := false, skipped := false, permission := false,
             error := some (.server e) }, [req])

/-- `archiveCheckInsByUser` from `part_000`: 10 attempts on
`{ status: 'ARCHIVED', archived_at: nowIso, updated_at: nowIso }`. -/
def archiveCheckInsByUser (server : Server) (table userId nowIso : String) :
    ArchiveOut × List DbReq :=
  archiveGo server table userId 10 0
    [("status", .s "ARCHIVED"), ("archived_at", .s nowIso), ("updated_at", .s nowIso)]

end Script

/-! ## `updateParticipantDecision` from `radar/[id]/page.tsx`
(lines 1297–1379 and the approve/notification tail of the function) -/

namespace RadarDetail

/-- `r.error?.message || ''` on a shim result (identity on the message
when the error is present). -/
def errMsgOf : Option Radar.InsError → String
  | some e => e.message
  | none => ""

/-- `updateParticipantDecision`: host approves or rejects a PENDING
participant.  `withChatRoom` and `fallbackSel` are the responses of the
two event selects, `chatGroup` the response of the v2 chat-group select
on the approve path; participant updates and the chat/notification
inserts go through the oracle. -/
def updateParticipantDecision (withChatRoom fallbackSel chatGroup : SBResp)
    (server : Server) (radarId targetUserId actorId : String)
    (source : RadarSource) (approve : Bool) (nowIso : String) :
    Except String Unit × List DbReq :=
  let eventPair : Option Payload × Option PgError :=
    match withChatRoom.error with
    | some e =>
      if isMissingColumnError e.message then (fallbackSel.data, fallbackSel.error)
      else (withChatRoom.data, some e)
    | none => (withChatRoom.data, none)
  let eventRow := eventPair.1
  let thrown : Option String :=
    match eventPair.2 with
    | some e => if isPermissionError e.message then none else some e.message
    | none => none
  match thrown with
  | some m => (.error m, [])
  | none =>
    let idOk :=
      match eventRow with
      | some row => (match lookupKey row "id" with | some v => v.truthy | none => false)
      | none => false
    let creatorOk :=
      (match eventRow with
       | some row => jsOptToString (lookupKey row "creator_id")
       | none => none) == some actorId
    if !(idOk && creatorOk) then
      (.error "Hanya host yang boleh memproses peserta pending.", [])
    else
      let nextStatus := if approve then "JOINED" else "REJECTED"
      let tables : String × String :=
        match source with
        | .v2 => ("radar_participants_v2", "radar_participants")
        | .legacy => ("radar_participants", "radar_participants_v2")
      let payload : Payload :=
        if approve then
          [("status", .s nextStatus), ("role", .s "MEMBER"),
           ("joined_at", .s nowIso), ("left_at", .null), ("kicked_at", .null)]
        else [("status", .s nextStatus)]
      let matchers : Payload :=
        [("radar_id", .s radarId), ("user_id", .s targetUserId),
         ("status", .s "PENDING")]
      -- the `await insertWithColumnFallback('notifications', ...)` tail
      let notif : Nat → List DbReq → Except String Unit × List DbReq :=
        fun ctr tr =>
          let nPayload : Payload :=
            [("user_id", .s targetUserId),
             ("type", .s (if approve then "radar_join_approved" else "radar_join_rejected")),
             ("title", .s (if approve then "Permintaan Join Disetujui" else "Permintaan Join Ditolak")),
             ("message", .s (if approve
               then "Host menyetujui permintaan Anda untuk bergabung ke radar."
               else "Host menolak permintaan Anda untuk bergabung ke radar.")),
             ("sender_id", .s actorId),
             ("actor_id", .s actorId),
             ("data", .obj [("radar_id", radarId), ("status", nextStatus)])]
          let rN := insertGo server "notifications" none 8 ctr nPayload
          (.ok (), tr ++ rN.2)
      -- the approve-path chat bridge, then the notification insert
      let afterUpdate : Nat → List DbReq → Except String Unit × List DbReq :=
        fun ctr tr =>
          if approve then
            match source with
            | .v2 =>
              let gid := jsOptToString (chatGroup.data.bind (fun row => lookupKey row "id"))
              match gid with
              | some g =>
                if g != "" then
                  let rC := insertGo server "radar_chat_members_v2"
                    (some "chat_group_id, user_id") 8 ctr
                    [("chat_group_id", .s g), ("user_id", .s targetUserId),
                     ("role", .s "MEMBER"), ("status", .s "JOINED"),
                     ("joined_at", .s nowIso)]
                  notif (ctr + rC.2.length) (tr ++ rC.2)
                else notif ctr tr
              | none => notif ctr tr
            | .legacy =>
              let cid := jsOptToString (eventRow.bind (fun row => lookupKey row "chat_room_id"))
              match cid with
              | some c =>
                if c != "" then
                  let rC := insertGo server "chat_members"
                    (some "chat_id, user_id") 8 ctr
                    [("chat_id", .s c), ("user_id", .s targetUserId)]
                  notif (ctr + rC.2.length) (tr ++ rC.2)
                else notif ctr tr
              | none => notif ctr tr
          else notif ctr tr
      -- `for (const table of participantTables)`, unrolled
      let r1 := updateGo server tables.1 matchers 8 0 payload
      match r1.1.error with
      | none => afterUpdate r1.2.length r1.2
      | some e1 =>
        let le1 := e1.message
        if !(isMissingColumnError le1) && !(isMissingRelationError le1) &&
            !(isPermissionError le1) then
          (.error (jsOrStr le1 "Gagal memperbarui status peserta."), r1.2)
        else
          let r2 := updateGo server tables.2 matchers 8 r1.2.length payload
          match r2.1.error with
          | none => afterUpdate (r1.2.length + r2.2.length) (r1.2 ++ r2.2)
          | some e2 =>
            (.error (jsOrStr e2.message "Gagal memperbarui status peserta."),
             r1.2 ++ r2.2)

end RadarDetail

/-! ## Notions used by the theorems -/

/-- Delete the keys of `S` from `w`, in order — the cumulative effect of
the shim's `delete working[col]` steps. -/
def stripKeys (w : Payload) (S : List String) : Payload :=
  S.foldl deleteKey w

/-- The successive working payloads of a run whose failed attempts strip
the columns of `S` in order (one body per failed attempt). -/
def fallbackBodies (w : Payload) : List String → List Payload
  | [] => []
  | c :: S => w :: fallbackBodies (deleteKey w c) S

/-- Number of distinct keys of a payload. -/
def keyCount (w : Payload) : Nat :=
  (w.map Prod.fst).dedup.length

namespace Radar

/-- The conditions under which an attempt of the `radar/page.tsx` insert
loop takes its `continue` branch on error `e`: not a duplicate, an
extractable missing-column name `c` that is still a key of the working
payload `w`. -/
def AttemptContinues (e : PgError) (w : Payload) (c : String) : Prop :=
  isDuplicateError e.message = false ∧
  extractMissingColumnName e.message = some c ∧
  hasKey w c = true ∧
  isMissingColumnError e.message = true

/-- The mock answers the attempts starting at request `ctr` with
missing-column errors naming the columns of `S` in order (each still
present in the then-current working payload). -/
def RadarTrace (server : Server) (table : String) (sel : Option String) :
    Nat → Payload → List String → Prop
  | _, _, [] => True
  | ctr, w, c :: S =>
    (∃ e, (server ctr (.insert table w sel)).error = some e ∧ AttemptContinues e w c) ∧
    RadarTrace server table sel (ctr + 1) (deleteKey w c) S

end Radar

namespace Script

/-- The conditions under which an attempt of the scripts' insert loop
takes its `continue` branch on error `e`. -/
def AttemptContinues (e : PgError) (w : Payload) (c : String) : Prop :=
  isMissingRelationError (some e) = false ∧
  isPermissionError (some e) = false ∧
  isMissingColumnError (some e) = true ∧
  extractColName (some e) = some c ∧
  hasKey w c = true

/-- The scripts' analogue of `Radar.RadarTrace`. -/
def ScriptTrace (server : Server) (table : String) (sel : Option String) :
    Nat → Payload → List String → Prop
  | _, _, [] => True
  | ctr, w, c :: S =>
    (∃ e, (server ctr (.insert table w sel)).error = some e ∧ AttemptContinues e w c) ∧
    ScriptTrace server table sel (ctr + 1) (deleteKey w c) S

end Script

/-- Does a row satisfy all the `.eq(key, value)` matchers of an update? -/
def matchersHold (m row : Payload) : Bool :=
  m.all (fun kv => lookupKey row kv.1 == some kv.2)

/-- Assign the columns of `b` into a row. -/
def applyCols (b row : Payload) : Payload :=
  b.foldl (fun r kv => setKey r kv.1 kv.2) row

/-- Modelled from the spec: the external query layer's filtered `update`
verb (spec §6, "filter/select/insert/update/delete verbs") applied to one
stored row — rows matching every `.eq` filter receive the update body,
all others are untouched.  The store itself lives outside this
repository; only this one-row semantics is modelled. -/
def updateRowIfMatch (b m row : Payload) : Payload :=
  if matchersHold m row then applyCols b row else row

/-! ## General lemmas about the working payload -/

theorem stripKeys_nil (w : Payload) : stripKeys w [] = w := rfl

theorem stripKeys_cons (w : Payload) (c : String) (S : List String) :
    stripKeys w (c :: S) = stripKeys (deleteKey w c) S := rfl

/-- Deleting the keys of `S` one by one is filtering out all of them at
once: the working payload left by the loop is "P minus S". -/
theorem stripKeys_eq_filter : ∀ (S : List String) (w : Payload),
    stripKeys w S = w.filter (fun p => !(S.contains p.1)) := by
  intro S
  induction S with
  | nil => intro w; simp [stripKeys]
  | cons c S ih =>
    intro w
    rw [stripKeys_cons, ih (deleteKey w c)]
    unfold deleteKey
    rw [List.filter_filter]
    congr 1
    funext p
    by_cases h : p.1 = c <;> by_cases h2 : p.1 ∈ S <;> simp [h, h2]

theorem fallbackBodies_length : ∀ (S : List String) (w : Payload),
    (fallbackBodies w S).length = S.length := by
  intro S
  induction S with
  | nil => intro w; rfl
  | cons c S ih => intro w; simp [fallbackBodies, ih]

namespace Radar

/-- If the mock's failures strip exactly the columns of `S` and the next
attempt succeeds, the page's insert loop returns that success, and the
bodies it issued are the successive strippings of the payload. -/
theorem insertGo_trace_success (server : Server) (table : String) (sel : Option String) :
    ∀ (S : List String) (fuel ctr : Nat) (w : Payload),
      S.length < fuel →
      RadarTrace server table sel ctr w S →
      (server (ctr + S.length) (.insert table (stripKeys w S) sel)).error = none →
      insertGo server table sel fuel ctr w =
        ({ data := (server (ctr + S.length) (.insert table (stripKeys w S) sel)).data,
           error := none, duplicate := false },
         (fallbackBodies w S ++ [stripKeys w S]).map (fun b => .insert table b sel)) := by
  intro S
  induction S with
  | nil =>
    intro fuel ctr w hlt _ hsucc
    cases fuel with
    | zero => omega
    | succ fuel =>
      simp only [stripKeys_nil, List.length_nil, Nat.add_zero] at hsucc ⊢
      simp [insertGo, hsucc, fallbackBodies]
  | cons c S ih =>
    intro fuel ctr w hlt htrace hsucc
    obtain ⟨⟨e, herr, hdup, hext, hkey, hcol⟩, htrace'⟩ := htrace
    cases fuel with
    | zero => omega
    | succ fuel =>
      have hlt' : S.length < fuel := by
        simp only [List.length_cons] at hlt; omega
      have harith : ctr + (c :: S).length = (ctr + 1) + S.length := by
        simp only [List.length_cons]; omega
      rw [stripKeys_cons, harith] at hsucc
      simp only [insertGo, herr, hdup, hext, hkey, hcol, Bool.false_eq_true, if_false,
        Bool.and_self, if_true]
      rw [ih fuel (ctr + 1) (deleteKey w c) hlt' htrace' hsucc]
      simp only [fallbackBodies, stripKeys_cons, List.length_cons, List.map_cons,
        List.cons_append, Prod.mk.injEq]
      have h2 : ctr + (S.length + 1) = ctr + 1 + S.length := by omega
      rw [h2]
      simp

/-- If the mock keeps answering strippable missing-column errors for as
many attempts as there is fuel, the page's insert loop exhausts the bound
and synthesizes its failure message. -/
theorem insertGo_exhaust (server : Server) (table : String) (sel : Option String) :
    ∀ (S : List String) (fuel ctr : Nat) (w : Payload),
      S.length = fuel →
      RadarTrace server table sel ctr w S →
      insertGo server table sel fuel ctr w =
        ({ data := none,
           error := some (.synthesized
             ("Gagal insert ke " ++ table ++ " setelah beberapa percobaan")),
           duplicate := false },
         (fallbackBodies w S).map (fun b => .insert table b sel)) := by
  intro S
  induction S with
  | nil =>
    intro fuel ctr w hlen _
    cases fuel with
    | zero => simp [insertGo, fallbackBodies]
    | succ fuel => simp at hlen
  | cons c S ih =>
    intro fuel ctr w hlen htrace
    obtain ⟨⟨e, herr, hdup, hext, hkey, hcol⟩, htrace'⟩ := htrace
    cases fuel with
    | zero => simp at hlen
    | succ fuel =>
      have hlen' : S.length = fuel := by
        simp only [List.length_cons] at hlen; omega
      simp only [insertGo, herr, hdup, hext, hkey, hcol, Bool.false_eq_true, if_false,
        Bool.and_self, if_true]
      rw [ih fuel (ctr + 1) (deleteKey w c) hlen' htrace']
      simp [fallbackBodies]

/-- A duplicate-key failure at any attempt is returned at once as a
success-shaped result (`error = none`, `duplicate = true`), with no
further request issued. -/
theorem insertGo_duplicate (server : Server) (table : String) (sel : Option String)
    (fuel ctr : Nat) (w : Payload) (e : PgError)
    (hfuel : 0 < fuel)
    (herr : (server ctr (.insert table w sel)).error = some e)
    (hdup : isDuplicateError e.message = true) :
    insertGo server table sel fuel ctr w =
      ({ data := (server ctr (.insert table w sel)).data,
         error := none, duplicate := true },
       [.insert table w sel]) := by
  cases fuel with
  | zero => omega
  | succ fuel => simp [insertGo, herr, hdup]

end Radar

namespace Script

/-- Script-side analogue of `Radar.insertGo_trace_success`. -/
theorem scriptInsertGo_trace_success (server : Server) (table : String) (sel : Option String) :
    ∀ (S : List String) (fuel ctr : Nat) (w : Payload),
      S.length < fuel →
      ScriptTrace server table sel ctr w S →
      (server (ctr + S.length) (.insert table (stripKeys w S) sel)).error = none →
      insertGo server table sel fuel ctr w =
        ({ ok := true, missing := false, permission := false,
           data := (server (ctr + S.length) (.insert table (stripKeys w S) sel)).data,
           table := table, error := none },
         (fallbackBodies w S ++ [stripKeys w S]).map (fun b => .insert table b sel)) := by
  intro S
  induction S with
  | nil =>
    intro fuel ctr w hlt _ hsucc
    cases fuel with
    | zero => omega
    | succ fuel =>
      simp only [stripKeys_nil, List.length_nil, Nat.add_zero] at hsucc ⊢
      simp [insertGo, hsucc, fallbackBodies]
  | cons c S ih =>
    intro fuel ctr w hlt htrace hsucc
    obtain ⟨⟨e, herr, hrel, hperm, hcol, hext, hkey⟩, htrace'⟩ := htrace
    cases fuel with
    | zero => omega
    | succ fuel =>
      have hlt' : S.length < fuel := by
        simp only [List.length_cons] at hlt; omega
      have harith : ctr + (c :: S).length = (ctr + 1) + S.length := by
        simp only [List.length_cons]; omega
      rw [stripKeys_cons, harith] at hsucc
      simp only [insertGo, herr, hrel, hperm, hcol, hext, hkey, Bool.false_eq_true, if_false,
        if_true]
      rw [ih fuel (ctr + 1) (deleteKey w c) hlt' htrace' hsucc]
      simp only [fallbackBodies, stripKeys_cons, List.length_cons, List.map_cons,
        List.cons_append, Prod.mk.injEq]
      have h2 : ctr + (S.length + 1) = ctr + 1 + S.length := by omega
      rw [h2]
      simp

/-- Script-side analogue of `Radar.insertGo_exhaust` (synthesized message
`Gagal insert <table> setelah beberapa percobaan.`). -/
theorem scriptInsertGo_exhaust (server : Server) (table : String) (sel : Option String) :
    ∀ (S : List String) (fuel ctr : Nat) (w : Payload),
      S.length = fuel →
      ScriptTrace server table sel ctr w S →
      insertGo server table sel fuel ctr w =
        ({ ok := false, missing := false, permission := false, data := none,
           table := table,
           error := some (.synthesized
             ("Gagal insert " ++ table ++ " setelah beberapa percobaan.")) },
         (fallbackBodies w S).map (fun b => .insert table b sel)) := by
  intro S
  induction S with
  | nil =>
    intro fuel ctr w hlen _
    cases fuel with
    | zero => simp [insertGo, fallbackBodies]
    | succ fuel => simp at hlen
  | cons c S ih =>
    intro fuel ctr w hlen htrace
    obtain ⟨⟨e, herr, hrel, hperm, hcol, hext, hkey⟩, htrace'⟩ := htrace
    cases fuel with
    | zero => simp at hlen
    | succ fuel =>
      have hlen' : S.length = fuel := by
        simp only [List.length_cons] at hlen; omega
      simp only [insertGo, herr, hrel, hperm, hcol, hext, hkey, Bool.false_eq_true, if_false,
        if_true]
      rw [ih fuel (ctr + 1) (deleteKey w c) hlen' htrace']
      simp [fallbackBodies]

/-- A missing-relation failure at any attempt of the scripts' loop is
returned at once as a distinct `missing := true` result, with no further
request issued. -/
theorem insertGo_missing_relation (server : Server) (table : String) (sel : Option String)
    (fuel ctr : Nat) (w : Payload) (e : PgError)
    (hfuel : 0 < fuel)
    (herr : (server ctr (.insert table w sel)).error = some e)
    (hrel : isMissingRelationError (some e) = true) :
    insertGo server table sel fuel ctr w =
      ({ ok := false, missing := true, permission := false, data := none,
         table := table, error := some (.server e) },
       [.insert table w sel]) := by
  cases fuel with
  | zero => omega
  | succ fuel => simp [insertGo, herr, hrel]

end Script

namespace Radar

/-- An error that is neither a duplicate nor carries an extractable
column name makes the page's insert loop return the raw error at once:
there is no missing-relation branch in this variant, so such failures
come back through the generic channel. -/
theorem insertGo_generic_error (server : Server) (table : String) (sel : Option String)
    (fuel ctr : Nat) (w : Payload) (e : PgError)
    (hfuel : 0 < fuel)
    (herr : (server ctr (.insert table w sel)).error = some e)
    (hdup : isDuplicateError e.message = false)
    (hext : extractMissingColumnName e.message = none) :
    insertGo server table sel fuel ctr w =
      ({ data := none, error := some (.server e), duplicate := false },
       [.insert table w sel]) := by
  cases fuel with
  | zero => omega
  | succ fuel => simp [insertGo, herr, hdup, hext]

end Radar

/-! ## Key counting (for the implicit attempt-exhaustion claim) -/

theorem keys_deleteKey (w : Payload) (c : String) :
    (deleteKey w c).map Prod.fst = (w.map Prod.fst).filter (fun k => k != c) := by
  induction w with
  | nil => rfl
  | cons p rest ih =>
    by_cases h : p.1 = c <;> simp [deleteKey, h, List.filter_cons] at ih ⊢ <;>
      simpa [deleteKey] using ih

/-- Deleting a present key strictly decreases the number of distinct
keys. -/
theorem keyCount_deleteKey_lt (w : Payload) (c : String) (h : hasKey w c = true) :
    keyCount (deleteKey w c) < keyCount w := by
  have hmem : c ∈ w.map Prod.fst := by
    rcases List.any_eq_true.mp h with ⟨p, hp, hbeq⟩
    exact List.mem_map.mpr ⟨p, hp, by simpa using (beq_iff_eq.mp hbeq)⟩
  unfold keyCount
  rw [keys_deleteKey, ← List.card_toFinset, ← List.card_toFinset, List.toFinset_filter]
  have hfe : Finset.filter (fun x => (x != c) = true) (w.map Prod.fst).toFinset
      = (w.map Prod.fst).toFinset.erase c := by
    rw [← Finset.filter_ne' (w.map Prod.fst).toFinset c]
    apply Finset.filter_congr
    intro x _
    simp [bne_iff_ne]
  rw [hfe]
  exact Finset.card_erase_lt_of_mem (List.mem_toFinset.mpr hmem)

theorem keyCount_le_length (w : Payload) : keyCount w ≤ w.length := by
  unfold keyCount
  calc (w.map Prod.fst).dedup.length ≤ (w.map Prod.fst).length :=
        (List.dedup_sublist _).length_le
    _ = w.length := List.length_map _ _

namespace Radar

/-- With more fuel than distinct keys, the page's insert loop returns
some attempt's outcome before the bound: the synthesized exhaustion
error is unreachable.  Each `continue` deletes a key that is present, so
the loop cannot keep continuing once the keys run out. -/
theorem insertGo_no_exhaust (server : Server) (table : String) (sel : Option String) :
    ∀ (fuel ctr : Nat) (w : Payload),
      keyCount w < fuel →
      ∀ m, (insertGo server table sel fuel ctr w).1.error ≠ some (.synthesized m) := by
  intro fuel
  induction fuel with
  | zero => intro ctr w h m; omega
  | succ fuel ih =>
    intro ctr w h m
    simp only [insertGo]
    cases herr : (server ctr (.insert table w sel)).error with
    | none => simp
    | some e =>
      simp only
      by_cases hdup : isDuplicateError e.message = true
      · simp [hdup]
      · simp only [hdup, if_false]
        cases hext : extractMissingColumnName e.message with
        | none => simp
        | some col =>
          simp only
          by_cases hcont : hasKey w col && isMissingColumnError e.message
          · simp only [hcont, if_true]
            have hkey : hasKey w col = true := by
              have h2 : (hasKey w col && Radar.isMissingColumnError e.message) = true := hcont
              exact (Bool.and_eq_true_iff.mp h2).1
            have hlt : keyCount (deleteKey w col) < fuel := by
              have := keyCount_deleteKey_lt w col hkey
              omega
            exact ih (ctr + 1) (deleteKey w col) hlt m
          · simp [hcont]

end Radar

/-- A mock that rejects every insert, naming the first key of the
submitted body as the missing column (used by the C3 witness). -/
def c3server : Server := fun _ req =>
  match req with
  | .insert _ ((k, _) :: _) _ =>
    ⟨none, some ⟨"column \"" ++ k ++ "\" does not exist", none⟩⟩
  | _ => ⟨none, some ⟨"x", none⟩⟩

/-- A 12-key payload (used by the C3 witness). -/
def c3payload : Payload := [("k0", JsVal.s ""), ("k1", JsVal.s ""), ("k2", JsVal.s ""), ("k3", JsVal.s ""), ("k4", JsVal.s ""), ("k5", JsVal.s ""), ("k6", JsVal.s ""), ("k7", JsVal.s ""), ("k8", JsVal.s ""), ("k9", JsVal.s ""), ("k10", JsVal.s ""), ("k11", JsVal.s "")]

/-! ## The claims -/

/-- C1 — Column-fallback convergence: for every payload `P`, when each
failed attempt of `insertWithColumnFallback` (both the `radar/page.tsx`
variant, bound 8, and the `part_000` variant, bound 10) reports a
missing-column error whose extracted column name is still a key of the
working copy, the shim deletes exactly that key and reissues the insert;
when an attempt succeeds, the issued request body is `P` minus the set
`S` of reported columns and the call returns success — provided `|S|` is
below the attempt bound.  The issued bodies are the successive
strippings of `P`, the last one being `P` with every column of `S`
filtered out. -/
theorem column_fallback_convergence :
    (∀ (server : Server) (table : String) (sel : Option String) (P : Payload)
       (S : List String),
       S.length < 8 →
       Radar.RadarTrace server table sel 0 P S →
       (server S.length (.insert table (stripKeys P S) sel)).error = none →
       Radar.insertWithColumnFallback server table P sel =
         ({ data := (server S.length (.insert table (stripKeys P S) sel)).data,
            error := none, duplicate := false },
          (fallbackBodies P S ++ [stripKeys P S]).map (fun b => .insert table b sel)) ∧
       stripKeys P S = P.filter (fun p => !(S.contains p.1))) ∧
    (∀ (server : Server) (table : String) (sel : Option String) (P : Payload)
       (S : List String),
       S.length < 10 →
       Script.ScriptTrace server table sel 0 P S →
       (server S.length (.insert table (stripKeys P S) sel)).error = none →
       Script.insertWithColumnFallback server table P sel =
         ({ ok := true, missing := false, permission := false,
            data := (server S.length (.insert table (stripKeys P S) sel)).data,
            table := table, error := none },
          (fallbackBodies P S ++ [stripKeys P S]).map (fun b => .insert table b sel)) ∧
       stripKeys P S = P.filter (fun p => !(S.contains p.1))) := by
  constructor
  · intro server table sel P S hlen htrace hsucc
    refine ⟨?_, stripKeys_eq_filter S P⟩
    have h := Radar.insertGo_trace_success server table sel S 8 0 P hlen htrace
      (by simpa using hsucc)
    simpa [Radar.insertWithColumnFallback] using h
  · intro server table sel P S hlen htrace hsucc
    refine ⟨?_, stripKeys_eq_filter S P⟩
    have h := Script.scriptInsertGo_trace_success server table sel S 10 0 P hlen htrace
      (by simpa using hsucc)
    simpa [Script.insertWithColumnFallback] using h

/-- Witness for C1: a two-key payload, the mock rejects `b` once as a
missing column and then accepts; both variants succeed with the reduced
body. -/
theorem column_fallback_convergence_witness :
    Radar.insertWithColumnFallback
      (fun ctr _ => if ctr == 0
        then ⟨none, some ⟨"column \"b\" does not exist", none⟩⟩
        else ⟨some [("id", JsVal.s "E1")], none⟩)
      "radar_events" [("a", JsVal.s "1"), ("b", JsVal.s "2")] (some "id") =
      ({ data := some [("id", JsVal.s "E1")], error := none, duplicate := false },
       [DbReq.insert "radar_events" [("a", JsVal.s "1"), ("b", JsVal.s "2")] (some "id"),
        DbReq.insert "radar_events" [("a", JsVal.s "1")] (some "id")]) ∧
    Script.insertWithColumnFallback
      (fun ctr _ => if ctr == 0
        then ⟨none, some ⟨"column \"b\" does not exist", none⟩⟩
        else ⟨some [("id", JsVal.s "E1")], none⟩)
      "radar_events" [("a", JsVal.s "1"), ("b", JsVal.s "2")] (some "id") =
      ({ ok := true, missing := false, permission := false,
         data := some [("id", JsVal.s "E1")], table := "radar_events", error := none },
       [DbReq.insert "radar_events" [("a", JsVal.s "1"), ("b", JsVal.s "2")] (some "id"),
        DbReq.insert "radar_events" [("a", JsVal.s "1")] (some "id")]) := by
  constructor
  · exact Eq.trans
      ((column_fallback_convergence.1
        (fun ctr _ => if ctr == 0
          then ⟨none, some ⟨"column \"b\" does not exist", none⟩⟩
          else ⟨some [("id", JsVal.s "E1")], none⟩)
        "radar_events" (some "id") [("a", JsVal.s "1"), ("b", JsVal.s "2")] ["b"]
        (by decide)
        ⟨⟨⟨"column \"b\" does not exist", none⟩, rfl, by decide, by decide, by decide,
          by decide⟩, trivial⟩
        rfl).1)
      (by decide)
  · exact Eq.trans
      ((column_fallback_convergence.2
        (fun ctr _ => if ctr == 0
          then ⟨none, some ⟨"column \"b\" does not exist", none⟩⟩
          else ⟨some [("id", JsVal.s "E1")], none⟩)
        "radar_events" (some "id") [("a", JsVal.s "1"), ("b", JsVal.s "2")] ["b"]
        (by decide)
        ⟨⟨⟨"column \"b\" does not exist", none⟩, rfl, by decide, by decide, by decide,
          by decide, by decide⟩, trivial⟩
        rfl).1)
      (by decide)

/-- C3 — Attempt bound respected: the three `insertWithColumnFallback`
variants have fixed attempt ceilings of 8 (`radar/page.tsx`), 10
(`part_000`) and 12 (smoke script); if every attempt fails without
returning early (i.e. each response is a strippable missing-column
error), the loop issues exactly that many requests and returns the
synthesized `Gagal insert ... setelah beberapa percobaan` failure
message — it never loops beyond the ceiling. -/
theorem attempt_bound_respected :
    (∀ (server : Server) (table : String) (sel : Option String) (P : Payload)
       (S : List String),
       S.length = 8 →
       Radar.RadarTrace server table sel 0 P S →
       Radar.insertWithColumnFallback server table P sel =
         ({ data := none,
            error := some (.synthesized
              ("Gagal insert ke " ++ table ++ " setelah beberapa percobaan")),
            duplicate := false },
          (fallbackBodies P S).map (fun b => .insert table b sel)) ∧
       (Radar.insertWithColumnFallback server table P sel).2.length = 8) ∧
    (∀ (server : Server) (table : String) (sel : Option String) (P : Payload)
       (S : List String),
       S.length = 10 →
       Script.ScriptTrace server table sel 0 P S →
       Script.insertWithColumnFallback server table P sel =
         ({ ok := false, missing := false, permission := false, data := none,
            table := table,
            error := some (.synthesized
              ("Gagal insert " ++ table ++ " setelah beberapa percobaan.")) },
          (fallbackBodies P S).map (fun b => .insert table b sel)) ∧
       (Script.insertWithColumnFallback server table P sel).2.length = 10) ∧
    (∀ (server : Server) (table : String) (sel : Option String) (P : Payload)
       (S : List String),
       S.length = 12 →
       Script.ScriptTrace server table sel 0 P S →
       Smoke.insertWithColumnFallback server table P sel =
         ({ ok := false, missing := false, permission := false, data := none,
            table := table,
            error := some (.synthesized
              ("Gagal insert " ++ table ++ " setelah beberapa percobaan.")) },
          (fallbackBodies P S).map (fun b => .insert table b sel)) ∧
       (Smoke.insertWithColumnFallback server table P sel).2.length = 12) := by
  refine ⟨?_, ?_, ?_⟩
  · intro server table sel P S hlen htrace
    have h := Radar.insertGo_exhaust server table sel S 8 0 P hlen htrace
    have h1 : Radar.insertWithColumnFallback server table P sel =
        ({ data := none,
           error := some (.synthesized
             ("Gagal insert ke " ++ table ++ " setelah beberapa percobaan")),
           duplicate := false },
         (fallbackBodies P S).map (fun b => .insert table b sel)) := by
      simpa [Radar.insertWithColumnFallback] using h
    refine ⟨h1, ?_⟩
    rw [h1]
    simp [fallbackBodies_length, hlen]
  · intro server table sel P S hlen htrace
    have h := Script.scriptInsertGo_exhaust server table sel S 10 0 P hlen htrace
    have h1 : Script.insertWithColumnFallback server table P sel =
        ({ ok := false, missing := false, permission := false, data := none,
           table := table,
           error := some (.synthesized
             ("Gagal insert " ++ table ++ " setelah beberapa percobaan.")) },
         (fallbackBodies P S).map (fun b => .insert table b sel)) := by
      simpa [Script.insertWithColumnFallback] using h
    refine ⟨h1, ?_⟩
    rw [h1]
    simp [fallbackBodies_length, hlen]
  · intro server table sel P S hlen htrace
    have h := Script.scriptInsertGo_exhaust server table sel S 12 0 P hlen htrace
    have h1 : Smoke.insertWithColumnFallback server table P sel =
        ({ ok := false, missing := false, permission := false, data := none,
           table := table,
           error := some (.synthesized
             ("Gagal insert " ++ table ++ " setelah beberapa percobaan.")) },
         (fallbackBodies P S).map (fun b => .insert table b sel)) := by
      simpa [Smoke.insertWithColumnFallback] using h
    refine ⟨h1, ?_⟩
    rw [h1]
    simp [fallbackBodies_length, hlen]

/-- Witness for C3: a 12-key payload against a mock that always rejects
the first key of the submitted body as a missing column; each variant
exhausts exactly its own ceiling and synthesizes its failure message. -/
theorem attempt_bound_respected_witness :
    (Radar.insertWithColumnFallback c3server "t" c3payload none).1 =
      { data := none,
         error := some (.synthesized "Gagal insert ke t setelah beberapa percobaan"),
         duplicate := false } ∧
    (Radar.insertWithColumnFallback c3server "t" c3payload none).2.length = 8 ∧
    (Script.insertWithColumnFallback c3server "t" c3payload none).1 =
      { ok := false, missing := false, permission := false, data := none,
         table := "t",
         error := some (.synthesized "Gagal insert t setelah beberapa percobaan.") } ∧
    (Script.insertWithColumnFallback c3server "t" c3payload none).2.length = 10 ∧
    (Smoke.insertWithColumnFallback c3server "t" c3payload none).1 =
      { ok := false, missing := false, permission := false, data := none,
         table := "t",
         error := some (.synthesized "Gagal insert t setelah beberapa percobaan.") } ∧
    (Smoke.insertWithColumnFallback c3server "t" c3payload none).2.length = 12 := by
  obtain ⟨hA, hA2⟩ := attempt_bound_respected.1 c3server "t" none c3payload
    ["k0", "k1", "k2", "k3", "k4", "k5", "k6", "k7"] (by decide)
    ⟨⟨⟨"column \"k0\" does not exist", none⟩, rfl, by decide, by decide, by decide, by decide⟩, ⟨⟨⟨"column \"k1\" does not exist", none⟩, rfl, by decide, by decide, by decide, by decide⟩, ⟨⟨⟨"column \"k2\" does not exist", none⟩, rfl, by decide, by decide, by decide, by decide⟩, ⟨⟨⟨"column \"k3\" does not exist", none⟩, rfl, by decide, by decide, by decide, by decide⟩, ⟨⟨⟨"column \"k4\" does not exist", none⟩, rfl, by decide, by decide, by decide, by decide⟩, ⟨⟨⟨"column \"k5\" does not exist", none⟩, rfl, by decide, by decide, by decide, by decide⟩, ⟨⟨⟨"column \"k6\" does not exist", none⟩, rfl, by decide, by decide, by decide, by decide⟩, ⟨⟨⟨"column \"k7\" does not exist", none⟩, rfl, by decide, by decide, by decide, by decide⟩, trivial⟩⟩⟩⟩⟩⟩⟩⟩
  obtain ⟨hB, hB2⟩ := attempt_bound_respected.2.1 c3server "t" none c3payload
    ["k0", "k1", "k2", "k3", "k4", "k5", "k6", "k7", "k8", "k9"] (by decide)
    ⟨⟨⟨"column \"k0\" does not exist", none⟩, rfl, by decide, by decide, by decide, by decide, by decide⟩, ⟨⟨⟨"column \"k1\" does not exist", none⟩, rfl, by decide, by decide, by decide, by decide, by decide⟩, ⟨⟨⟨"column \"k2\" does not exist", none⟩, rfl, by decide, by decide, by decide, by decide, by decide⟩, ⟨⟨⟨"column \"k3\" does not exist", none⟩, rfl, by decide, by decide, by decide, by decide, by decide⟩, ⟨⟨⟨"column \"k4\" does not exist", none⟩, rfl, by decide, by decide, by decide, by decide, by decide⟩, ⟨⟨⟨"column \"k5\" does not exist", none⟩, rfl, by decide, by decide, by decide, by decide, by decide⟩, ⟨⟨⟨"column \"k6\" does not exist", none⟩, rfl, by decide, by decide, by decide, by decide, by decide⟩, ⟨⟨⟨"column \"k7\" does not exist", none⟩, rfl, by decide, by decide, by decide, by decide, by decide⟩, ⟨⟨⟨"column \"k8\" does not exist", none⟩, rfl, by decide, by decide, by decide, by decide, by decide⟩, ⟨⟨⟨"column \"k9\" does not exist", none⟩, rfl, by decide, by decide, by decide, by decide, by decide⟩, trivial⟩⟩⟩⟩⟩⟩⟩⟩⟩⟩
  obtain ⟨hC, hC2⟩ := attempt_bound_respected.2.2 c3server "t" none c3payload
    ["k0", "k1", "k2", "k3", "k4", "k5", "k6", "k7", "k8", "k9", "k10", "k11"] (by decide)
    ⟨⟨⟨"column \"k0\" does not exist", none⟩, rfl, by decide, by decide, by decide, by decide, by decide⟩, ⟨⟨⟨"column \"k1\" does not exist", none⟩, rfl, by decide, by decide, by decide, by decide, by decide⟩, ⟨⟨⟨"column \"k2\" does not exist", none⟩, rfl, by decide, by decide, by decide, by decide, by decide⟩, ⟨⟨⟨"column \"k3\" does not exist", none⟩, rfl, by decide, by decide, by decide, by decide, by decide⟩, ⟨⟨⟨"column \"k4\" does not exist", none⟩, rfl, by decide, by decide, by decide, by decide, by decide⟩, ⟨⟨⟨"column \"k5\" does not exist", none⟩, rfl, by decide, by decide, by decide, by decide, by decide⟩, ⟨⟨⟨"column \"k6\" does not exist", none⟩, rfl, by decide, by decide, by decide, by decide, by decide⟩, ⟨⟨⟨"column \"k7\" does not exist", none⟩, rfl, by decide, by decide, by decide, by decide, by decide⟩, ⟨⟨⟨"column \"k8\" does not exist", none⟩, rfl, by decide, by decide, by decide, by decide, by decide⟩, ⟨⟨⟨"column \"k9\" does not exist", none⟩, rfl, by decide, by decide, by decide, by decide, by decide⟩, ⟨⟨⟨"column \"k10\" does not exist", none⟩, rfl, by decide, by decide, by decide, by decide, by decide⟩, ⟨⟨⟨"column \"k11\" does not exist", none⟩, rfl, by decide, by decide, by decide, by decide, by decide⟩, trivial⟩⟩⟩⟩⟩⟩⟩⟩⟩⟩⟩⟩
  refine ⟨?_, hA2, ?_, hB2, ?_, hC2⟩
  · rw [hA]; decide
  · rw [hB]; decide
  · rw [hC]; decide

/-- C5 — Duplicate-key idempotence: if any attempt of the radar page's
`insertWithColumnFallback` fails with a duplicate-key error, the
function returns a success-shaped result (`error = none`,
`duplicate = true`) at once, issuing no further request; in particular a
duplicate on the first attempt gives this result directly. -/
theorem duplicate_key_idempotence :
    (∀ (server : Server) (table : String) (sel : Option String) (fuel ctr : Nat)
       (w : Payload) (e : PgError),
       0 < fuel →
       (server ctr (.insert table w sel)).error = some e →
       Radar.isDuplicateError e.message = true →
       Radar.insertGo server table sel fuel ctr w =
         ({ data := (server ctr (.insert table w sel)).data,
            error := none, duplicate := true },
          [.insert table w sel])) ∧
    (∀ (server : Server) (table : String) (sel : Option String) (P : Payload)
       (e : PgError),
       (server 0 (.insert table P sel)).error = some e →
       Radar.isDuplicateError e.message = true →
       Radar.insertWithColumnFallback server table P sel =
         ({ data := (server 0 (.insert table P sel)).data,
            error := none, duplicate := true },
          [.insert table P sel])) := by
  refine ⟨Radar.insertGo_duplicate, ?_⟩
  intro server table sel P e herr hdup
  simpa [Radar.insertWithColumnFallback] using
    Radar.insertGo_duplicate server table sel 8 0 P e (by omega) herr hdup

/-- Witness for C5: a mock that reports a unique-constraint violation on
the first insert; the call comes back success-shaped with the duplicate
flag set and exactly one request issued. -/
theorem duplicate_key_idempotence_witness :
    Radar.insertWithColumnFallback
      (fun _ _ => ⟨none,
        some ⟨"duplicate key value violates unique constraint \"radar_participants_pkey\"",
          none⟩⟩)
      "radar_participants" [("radar_id", JsVal.s "r1")] none =
      ({ data := none, error := none, duplicate := true },
       [DbReq.insert "radar_participants" [("radar_id", JsVal.s "r1")] none]) := by
  exact Eq.trans
    (duplicate_key_idempotence.2
      (fun _ _ => ⟨none,
        some ⟨"duplicate key value violates unique constraint \"radar_participants_pkey\"",
          none⟩⟩)
      "radar_participants" none [("radar_id", JsVal.s "r1")]
      ⟨"duplicate key value violates unique constraint \"radar_participants_pkey\"", none⟩
      rfl (by decide))
    (by decide)

/-- C9 — Implicit claim: every iteration of the radar page's
`insertWithColumnFallback` either returns some attempt's outcome or
strictly removes a key that is present in the working copy, so for a
payload with fewer than 8 keys the loop returns before the ceiling and
the synthesized `Gagal insert ... setelah beberapa percobaan` failure is
never produced. -/
theorem small_payload_no_exhaustion :
    ∀ (server : Server) (table : String) (sel : Option String) (P : Payload),
      P.length < 8 →
      ∀ m, (Radar.insertWithColumnFallback server table P sel).1.error ≠
        some (.synthesized m) := by
  intro server table sel P hlen m
  have hkc : keyCount P < 8 := Nat.lt_of_le_of_lt (keyCount_le_length P) hlen
  exact Radar.insertGo_no_exhaust server table sel 8 0 P hkc m

/-- Witness for C9: a three-key payload against a mock that always
rejects the head key of the body; the result is the raw error of the
fourth attempt (whose body is empty), not the synthesized exhaustion
failure. -/
theorem small_payload_no_exhaustion_witness :
    ([("a", JsVal.s "1"), ("b", JsVal.s "2"), ("c", JsVal.s "3")] : Payload).length < 8 ∧
    (Radar.insertWithColumnFallback c3server "t"
        [("a", JsVal.s "1"), ("b", JsVal.s "2"), ("c", JsVal.s "3")] none).1.error ≠
      some (.synthesized "Gagal insert ke t setelah beberapa percobaan") :=
  ⟨by decide,
   small_payload_no_exhaustion c3server "t" none
     [("a", JsVal.s "1"), ("b", JsVal.s "2"), ("c", JsVal.s "3")] (by decide)
     "Gagal insert ke t setelah beberapa percobaan"⟩

/-- C2 counterexample — the `radar/page.tsx` `insertWithColumnFallback`
cited by the claim has no missing-relation branch: a missing-relation
response (first conjunct: the classifier recognises it as one) comes
back through exactly the same generic failure shape (raw error passed
through, result type without any missing marker) as a wholly
unclassified error (third conjunct), not as a distinct "missing" result;
the claim's "returns ... a distinct 'missing' failure result" is
therefore false of this variant.  (It does return on the first response
without retrying.) -/
theorem missing_relation_short_circuit_counterexample :
    Radar.isMissingRelationError "relation \"radar_events\" does not exist" = true ∧
    Radar.insertWithColumnFallback
      (fun _ _ => ⟨none, some ⟨"relation \"radar_events\" does not exist", none⟩⟩)
      "radar_events" [("a", JsVal.s "1")] (some "id") =
      ({ data := none,
         error := some (.server ⟨"relation \"radar_events\" does not exist", none⟩),
         duplicate := false },
       [DbReq.insert "radar_events" [("a", JsVal.s "1")] (some "id")]) ∧
    Radar.insertWithColumnFallback
      (fun _ _ => ⟨none, some ⟨"totally unclassified failure", none⟩⟩)
      "radar_events" [("a", JsVal.s "1")] (some "id") =
      ({ data := none,
         error := some (.server ⟨"totally unclassified failure", none⟩),
         duplicate := false },
       [DbReq.insert "radar_events" [("a", JsVal.s "1")] (some "id")]) := by
  refine ⟨by decide, ?_, ?_⟩ <;> decide

/-- C2 amended — Missing-relation short-circuit: a missing-relation
response is never retried against the same table by any
`insertWithColumnFallback` variant, which returns on the first such
response having issued exactly one request.  The scripts' variants
(`part_000` and the smoke script) return a distinct `missing := true`
result; the `radar/page.tsx` variant has no missing-relation branch and
returns the raw error through its generic failure shape instead. -/
theorem missing_relation_short_circuit_amended :
    (∀ (server : Server) (table : String) (sel : Option String) (P : Payload)
       (e : PgError),
       (server 0 (.insert table P sel)).error = some e →
       Script.isMissingRelationError (some e) = true →
       Script.insertWithColumnFallback server table P sel =
         ({ ok := false, missing := true, permission := false, data := none,
            table := table, error := some (.server e) },
          [.insert table P sel]) ∧
       Smoke.insertWithColumnFallback server table P sel =
         ({ ok := false, missing := true, permission := false, data := none,
            table := table, error := some (.server e) },
          [.insert table P sel])) ∧
    (∀ (server : Server) (table : String) (sel : Option String) (P : Payload)
       (e : PgError),
       (server 0 (.insert table P sel)).error = some e →
       Radar.isMissingRelationError e.message = true →
       Radar.isDuplicateError e.message = false →
       extractMissingColumnName e.message = none →
       Radar.insertWithColumnFallback server table P sel =
         ({ data := none, error := some (.server e), duplicate := false },
          [.insert table P sel])) := by
  constructor
  · intro server table sel P e herr hrel
    constructor
    · simpa [Script.insertWithColumnFallback] using
        Script.insertGo_missing_relation server table sel 10 0 P e (by omega) herr hrel
    · simpa [Smoke.insertWithColumnFallback] using
        Script.insertGo_missing_relation server table sel 12 0 P e (by omega) herr hrel
  · intro server table sel P e herr hrel hdup hext
    simpa [Radar.insertWithColumnFallback] using
      Radar.insertGo_generic_error server table sel 8 0 P e (by omega) herr hdup hext

/-- Witness for the amended C2, at a concrete missing-relation
response. -/
theorem missing_relation_short_circuit_amended_witness :
    Script.insertWithColumnFallback
      (fun _ _ => ⟨none, some ⟨"relation \"radar_events\" does not exist", none⟩⟩)
      "radar_events" [("a", JsVal.s "1")] (some "id") =
      ({ ok := false, missing := true, permission := false, data := none,
         table := "radar_events",
         error := some (.server ⟨"relation \"radar_events\" does not exist", none⟩) },
       [DbReq.insert "radar_events" [("a", JsVal.s "1")] (some "id")]) ∧
    Radar.insertWithColumnFallback
      (fun _ _ => ⟨none, some ⟨"relation \"radar_events\" does not exist", none⟩⟩)
      "radar_events" [("a", JsVal.s "1")] (some "id") =
      ({ data := none,
         error := some (.server ⟨"relation \"radar_events\" does not exist", none⟩),
         duplicate := false },
       [DbReq.insert "radar_events" [("a", JsVal.s "1")] (some "id")]) := by
  constructor
  · exact (missing_relation_short_circuit_amended.1
      (fun _ _ => ⟨none, some ⟨"relation \"radar_events\" does not exist", none⟩⟩)
      "radar_events" (some "id") [("a", JsVal.s "1")]
      ⟨"relation \"radar_events\" does not exist", none⟩ rfl (by decide)).1
  · exact missing_relation_short_circuit_amended.2
      (fun _ _ => ⟨none, some ⟨"relation \"radar_events\" does not exist", none⟩⟩)
      "radar_events" (some "id") [("a", JsVal.s "1")]
      ⟨"relation \"radar_events\" does not exist", none⟩ rfl (by decide) (by decide)
      (by decide)

/-! ## Substring characterisation, for the classifier claims -/

theorem leadsWith_iff : ∀ (n l : List Char), leadsWith n l = true ↔ n <+: l := by
  intro n
  induction n with
  | nil => intro l; simp [leadsWith, List.nil_prefix]
  | cons a as ih =>
    intro l
    cases l with
    | nil => simp [leadsWith, List.prefix_nil]
    | cons b bs => simp [leadsWith, List.cons_prefix_cons, ih bs, And.comm]

theorem hasSub_iff : ∀ (n l : List Char), hasSub n l = true ↔ n <:+: l := by
  intro n l
  induction l with
  | nil => simp [hasSub, List.isEmpty_iff, List.infix_nil]
  | cons c cs ih => simp [hasSub, leadsWith_iff, ih, List.infix_cons_iff]

theorem strIncludes_iff (hay needle : String) :
    strIncludes hay needle = true ↔ needle.toList <:+: hay.toList :=
  hasSub_iff needle.toList hay.toList

/-- C7 counterexample — `isPermissionError` in `radar/page.tsx` does NOT
return true for a message containing `not authenticated`: that signal is
handled by the separate `isNotAuthenticatedError` classifier there. -/
theorem permission_classifier_counterexample :
    Radar.isPermissionError "not authenticated" = false ∧
    Radar.isNotAuthenticatedError "not authenticated" = true := by
  decide

/-- C7 amended — Permission-denied classification: the radar page's
`isPermissionError` returns true exactly for messages containing
(case-insensitively) `42501`, `permission denied` or `row-level
security`; `not authenticated` is recognised there by the separate
`isNotAuthenticatedError`.  The scripts' `isPermissionError` matches all
four signals, `not authenticated` included, and is false when none of
them occurs. -/
theorem permission_classifier_amended :
    (∀ m : String,
      (Radar.isPermissionError m = true ↔
        ("42501".toList <:+: (toLowerStr m).toList ∨
         "permission denied".toList <:+: (toLowerStr m).toList ∨
         "row-level security".toList <:+: (toLowerStr m).toList)) ∧
      (Radar.isNotAuthenticatedError m = true ↔
        "not authenticated".toList <:+: (toLowerStr m).toList)) ∧
    (∀ e : PgError,
      Script.isPermissionError (some e) = true ↔
        ("42501".toList <:+: (Script.normalizeError (some e)).toList ∨
         "permission denied".toList <:+: (Script.normalizeError (some e)).toList ∨
         "row-level security".toList <:+: (Script.normalizeError (some e)).toList ∨
         "not authenticated".toList <:+: (Script.normalizeError (some e)).toList)) := by
  refine ⟨fun m => ⟨?_, ?_⟩, fun e => ?_⟩
  · simp only [Radar.isPermissionError, Bool.or_eq_true, strIncludes_iff]
    tauto
  · simp [Radar.isNotAuthenticatedError, strIncludes_iff]
  · simp only [Script.isPermissionError, Bool.or_eq_true, strIncludes_iff]
    tauto

/-- `lookupKey` on a cons cell. -/
theorem lookupKey_cons (p : String × JsVal) (rest : Payload) (k : String) :
    lookupKey (p :: rest) k = if p.1 == k then some p.2 else lookupKey rest k := by
  cases hp : p.1 == k <;> simp [lookupKey, List.find?_cons, hp]

/-- Looking up `k` after appending `(k, v)` to a payload without `k`. -/
theorem lookupKey_append_single (k : String) (v : JsVal) :
    ∀ (w : Payload), hasKey w k = false → lookupKey (w ++ [(k, v)]) k = some v := by
  intro w
  induction w with
  | nil => intro _; simp [lookupKey]
  | cons p rest ih =>
    intro hk
    have hp : (p.1 == k) = false := by
      simp only [hasKey, List.any_cons, Bool.or_eq_false_iff] at hk
      exact hk.1
    have hr : hasKey rest k = false := by
      simp only [hasKey, List.any_cons, Bool.or_eq_false_iff] at hk
      exact hk.2
    rw [List.cons_append, lookupKey_cons, hp]
    simp only [Bool.false_eq_true, if_false]
    exact ih hr

/-- Looking up `k` after replacing its entry in place. -/
theorem lookupKey_map_replace (k : String) (v : JsVal) :
    ∀ (w : Payload), hasKey w k = true →
      lookupKey (w.map (fun q => if q.1 == k then (k, v) else q)) k = some v := by
  intro w
  induction w with
  | nil => intro hk; simp [hasKey] at hk
  | cons p rest ih =>
    intro hk
    cases hp : (p.1 == k) with
    | true =>
      simp only [List.map_cons, hp, if_true]
      rw [lookupKey_cons]
      simp
    | false =>
      have hr : hasKey rest k = true := by
        simp only [hasKey, List.any_cons, hp, Bool.false_or] at hk
        exact hk
      simp only [List.map_cons, hp, Bool.false_eq_true, if_false]
      rw [lookupKey_cons, hp]
      simp only [Bool.false_eq_true, if_false]
      exact ih hr

/-- Reading back the key just assigned. -/
theorem lookupKey_setKey (w : Payload) (k : String) (v : JsVal) :
    lookupKey (setKey w k v) k = some v := by
  unfold setKey
  cases hk : hasKey w k with
  | true => simp only [if_true]; exact lookupKey_map_replace k v w hk
  | false => simp only [Bool.false_eq_true, if_false]; exact lookupKey_append_single k v w hk

namespace Radar

/-- Two-attempt behaviour of the `setCheckOutNow` loop when the first
response is an archived-enum/check violation: the status is substituted
once; the outcome is then decided entirely by the second response, since
the substitution guard (`status` still `ARCHIVED`) can no longer hold. -/
theorem setCheckOutGo_sub_once (server : Server) (table idv userId : String)
    (fuel ctr : Nat) (w : Payload) (e0 : PgError)
    (hst : lookupKey w "status" = some (.s "ARCHIVED"))
    (h0err : (server ctr (.update table w [("id", .s idv), ("user_id", .s userId)])).error
      = some e0)
    (h0ext : extractMissingColumnName e0.message = none)
    (h0enum : shouldFallbackToFinishedStatus e0.message = true) :
    ((server (ctr + 1) (.update table (setKey w "status" (.s "FINISHED"))
        [("id", .s idv), ("user_id", .s userId)])).error = none →
      setCheckOutGo server table idv userId (fuel + 2) ctr w =
        (.ok (),
         [.update table w [("id", .s idv), ("user_id", .s userId)],
          .update table (setKey w "status" (.s "FINISHED"))
            [("id", .s idv), ("user_id", .s userId)]])) ∧
    (∀ e1 : PgError,
      (server (ctr + 1) (.update table (setKey w "status" (.s "FINISHED"))
          [("id", .s idv), ("user_id", .s userId)])).error = some e1 →
      extractMissingColumnName e1.message = none →
      isPermissionError e1.message = false →
      setCheckOutGo server table idv userId (fuel + 2) ctr w =
        (.error e1.message,
         [.update table w [("id", .s idv), ("user_id", .s userId)],
          .update table (setKey w "status" (.s "FINISHED"))
            [("id", .s idv), ("user_id", .s userId)]])) := by
  have hguard1 : (lookupKey w "status" == some (JsVal.s "ARCHIVED")) = true := by
    rw [hst]; decide
  have hguard2 : (lookupKey (setKey w "status" (.s "FINISHED")) "status"
      == some (JsVal.s "ARCHIVED")) = false := by
    rw [lookupKey_setKey]; decide
  constructor
  · intro h1
    simp only [setCheckOutGo, h0err, h0ext, hguard1, h0enum, Bool.and_self, if_true, h1]
  · intro e1 h1err h1ext h1perm
    simp only [setCheckOutGo, h0err, h0ext, hguard1, h0enum, Bool.and_self, if_true,
      h1err, h1ext, hguard2, Bool.false_and, Bool.false_eq_true, if_false, h1perm]

end Radar

namespace Script

/-- Two-attempt behaviour of the `archiveCheckInsByUser` loop when the
first response is an enum/check-constraint violation while the payload
still carries `status: 'ARCHIVED'`. -/
theorem archiveGo_sub_once (server : Server) (table userId : String)
    (fuel ctr : Nat) (w : Payload) (e0 : PgError)
    (hst : lookupKey w "status" = some (.s "ARCHIVED"))
    (h0err : (server ctr (.update table w
        [("user_id", .s userId), ("status", .s "ACTIVE")])).error = some e0)
    (h0rel : isMissingRelationError (some e0) = false)
    (h0perm : isPermissionError (some e0) = false)
    (h0enum : isEnumConstraintError (some e0) = true) :
    ((server (ctr + 1) (.update table (setKey w "status" (.s "FINISHED"))
        [("user_id", .s userId), ("status", .s "ACTIVE")])).error = none →
      archiveGo server table userId (fuel + 2) ctr w =
        ({ ok := true, skipped := false, permission := false, error := none },
         [.update table w [("user_id", .s userId), ("status", .s "ACTIVE")],
          .update table (setKey w "status" (.s "FINISHED"))
            [("user_id", .s userId), ("status", .s "ACTIVE")]])) ∧
    (∀ e1 : PgError,
      (server (ctr + 1) (.update table (setKey w "status" (.s "FINISHED"))
          [("user_id", .s userId), ("status", .s "ACTIVE")])).error = some e1 →
      isMissingRelationError (some e1) = false →
      isPermissionError (some e1) = false →
      extractColName (some e1) = none →
      archiveGo server table userId (fuel + 2) ctr w =
        ({ ok := false, skipped := false, permission := false,
           error := some (.server e1) },
         [.update table w [("user_id", .s userId), ("status", .s "ACTIVE")],
          .update table (setKey w "status" (.s "FINISHED"))
            [("user_id", .s userId), ("status", .s "ACTIVE")]])) := by
  have hguard1 : (lookupKey w "status" == some (JsVal.s "ARCHIVED")) = true := by
    rw [hst]; decide
  have hguard2 : (lookupKey (setKey w "status" (.s "FINISHED")) "status"
      == some (JsVal.s "ARCHIVED")) = false := by
    rw [lookupKey_setKey]; decide
  constructor
  · intro h1
    simp only [archiveGo, h0err, h0rel, h0perm, hguard1, h0enum, Bool.and_self,
      Bool.false_eq_true, if_false, if_true, h1]
  · intro e1 h1err h1rel h1perm h1ext
    simp only [archiveGo, h0err, h0rel, h0perm, hguard1, h0enum, Bool.and_self,
      Bool.false_eq_true, if_false, if_true, h1err, h1rel, h1perm, h1ext, hguard2,
      Bool.false_and]

end Script

/-- C4 counterexample — the claim predicts that when the server rejects
both `ARCHIVED` and `FINISHED` the loop "fails after the attempt ceiling"
(8 for `setCheckOutNow`); in fact the second rejection is not caught by
any branch (the substitution guard requires `status` to still be
`ARCHIVED`), so the raw enum error is thrown after exactly 2 attempts and
the ceiling message `Gagal check-out sekarang.` is never reached. -/
theorem enum_fallback_counterexample :
    Radar.setCheckOutNow
      (fun ctr _ => if ctr == 0
        then ⟨none, some ⟨"invalid input value for enum mass_checkin_status: \"ARCHIVED\"",
          none⟩⟩
        else ⟨none, some ⟨"invalid input value for enum mass_checkin_status: \"FINISHED\"",
          none⟩⟩)
      "u1" "mass_checkins" "row1" "NOW" =
      (.error "invalid input value for enum mass_checkin_status: \"FINISHED\"",
       [.update "mass_checkins"
          [("status", JsVal.s "ARCHIVED"), ("archived_at", JsVal.s "NOW"),
           ("updated_at", JsVal.s "NOW")]
          [("id", JsVal.s "row1"), ("user_id", JsVal.s "u1")],
        .update "mass_checkins"
          [("status", JsVal.s "FINISHED"), ("archived_at", JsVal.s "NOW"),
           ("updated_at", JsVal.s "NOW")]
          [("id", JsVal.s "row1"), ("user_id", JsVal.s "u1")]]) ∧
    (2 : Nat) ≠ 8 ∧
    "invalid input value for enum mass_checkin_status: \"FINISHED\"" ≠
      "Gagal check-out sekarang." := by
  refine ⟨rfl, by decide, by decide⟩

/-- C4 amended — Enum-fallback on the archive/check-out path: with the
working payload at `status: 'ARCHIVED'`, an enum/check-constraint
violation makes the shim substitute `FINISHED` exactly once and retry;
the guard (`status` still `ARCHIVED`) prevents any repeat.  If the
server accepts the substituted value the call succeeds on the second
attempt; if it rejects both values the call fails on that second attempt
with the raw error — before the attempt ceiling — so there is no
infinite substitution loop.  Stated for `setCheckOutNow`
(`radar/page.tsx`) and `archiveCheckInsByUser` (`part_000`). -/
theorem enum_fallback_once_amended :
    (∀ (server : Server) (table idv userId nowIso : String) (e0 : PgError),
      (server 0 (.update table
          [("status", JsVal.s "ARCHIVED"), ("archived_at", JsVal.s nowIso),
           ("updated_at", JsVal.s nowIso)]
          [("id", JsVal.s idv), ("user_id", JsVal.s userId)])).error = some e0 →
      extractMissingColumnName e0.message = none →
      Radar.shouldFallbackToFinishedStatus e0.message = true →
      (((server 1 (.update table
            [("status", JsVal.s "FINISHED"), ("archived_at", JsVal.s nowIso),
             ("updated_at", JsVal.s nowIso)]
            [("id", JsVal.s idv), ("user_id", JsVal.s userId)])).error = none →
          Radar.setCheckOutNow server userId table idv nowIso =
            (.ok (),
             [.update table
                [("status", JsVal.s "ARCHIVED"), ("archived_at", JsVal.s nowIso),
                 ("updated_at", JsVal.s nowIso)]
                [("id", JsVal.s idv), ("user_id", JsVal.s userId)],
              .update table
                [("status", JsVal.s "FINISHED"), ("archived_at", JsVal.s nowIso),
                 ("updated_at", JsVal.s nowIso)]
                [("id", JsVal.s idv), ("user_id", JsVal.s userId)]])) ∧
       (∀ e1 : PgError,
          (server 1 (.update table
              [("status", JsVal.s "FINISHED"), ("archived_at", JsVal.s nowIso),
               ("updated_at", JsVal.s nowIso)]
              [("id", JsVal.s idv), ("user_id", JsVal.s userId)])).error = some e1 →
          extractMissingColumnName e1.message = none →
          Radar.isPermissionError e1.message = false →
          Radar.setCheckOutNow server userId table idv nowIso =
            (.error e1.message,
             [.update table
                [("status", JsVal.s "ARCHIVED"), ("archived_at", JsVal.s nowIso),
                 ("updated_at", JsVal.s nowIso)]
                [("id", JsVal.s idv), ("user_id", JsVal.s userId)],
              .update table
                [("status", JsVal.s "FINISHED"), ("archived_at", JsVal.s nowIso),
                 ("updated_at", JsVal.s nowIso)]
                [("id", JsVal.s idv), ("user_id", JsVal.s userId)]])))) ∧
    (∀ (server : Server) (table userId nowIso : String) (e0 : PgError),
      (server 0 (.update table
          [("status", JsVal.s "ARCHIVED"), ("archived_at", JsVal.s nowIso),
           ("updated_at", JsVal.s nowIso)]
          [("user_id", JsVal.s userId), ("status", JsVal.s "ACTIVE")])).error = some e0 →
      Script.isMissingRelationError (some e0) = false →
      Script.isPermissionError (some e0) = false →
      Script.isEnumConstraintError (some e0) = true →
      (((server 1 (.update table
            [("status", JsVal.s "FINISHED"), ("archived_at", JsVal.s nowIso),
             ("updated_at", JsVal.s nowIso)]
            [("user_id", JsVal.s userId), ("status", JsVal.s "ACTIVE")])).error = none →
          Script.archiveCheckInsByUser server table userId nowIso =
            ({ ok := true, skipped := false, permission := false, error := none },
             [.update table
                [("status", JsVal.s "ARCHIVED"), ("archived_at", JsVal.s nowIso),
                 ("updated_at", JsVal.s nowIso)]
                [("user_id", JsVal.s userId), ("status", JsVal.s "ACTIVE")],
              .update table
                [("status", JsVal.s "FINISHED"), ("archived_at", JsVal.s nowIso),
                 ("updated_at", JsVal.s nowIso)]
                [("user_id", JsVal.s userId), ("status", JsVal.s "ACTIVE")]])) ∧
       (∀ e1 : PgError,
          (server 1 (.update table
              [("status", JsVal.s "FINISHED"), ("archived_at", JsVal.s nowIso),
               ("updated_at", JsVal.s nowIso)]
              [("user_id", JsVal.s userId), ("status", JsVal.s "ACTIVE")])).error = some e1 →
          Script.isMissingRelationError (some e1) = false →
          Script.isPermissionError (some e1) = false →
          Script.extractColName (some e1) = none →
          Script.archiveCheckInsByUser server table userId nowIso =
            ({ ok := false, skipped := false, permission := false,
               error := some (.server e1) },
             [.update table
                [("status", JsVal.s "ARCHIVED"), ("archived_at", JsVal.s nowIso),
                 ("updated_at", JsVal.s nowIso)]
                [("user_id", JsVal.s userId), ("status", JsVal.s "ACTIVE")],
              .update table
                [("status", JsVal.s "FINISHED"), ("archived_at", JsVal.s nowIso),
                 ("updated_at", JsVal.s nowIso)]
                [("user_id", JsVal.s userId), ("status", JsVal.s "ACTIVE")]])))) := by
  constructor
  · intro server table idv userId nowIso e0 h0err h0ext h0enum
    have h := Radar.setCheckOutGo_sub_once server table idv userId 6 0
      [("status", JsVal.s "ARCHIVED"), ("archived_at", JsVal.s nowIso),
       ("updated_at", JsVal.s nowIso)] e0 rfl h0err h0ext h0enum
    exact ⟨fun h1 => h.1 h1, fun e1 h1 h2 h3 => h.2 e1 h1 h2 h3⟩
  · intro server table userId nowIso e0 h0err h0rel h0perm h0enum
    have h := Script.archiveGo_sub_once server table userId 8 0
      [("status", JsVal.s "ARCHIVED"), ("archived_at", JsVal.s nowIso),
       ("updated_at", JsVal.s nowIso)] e0 rfl h0err h0rel h0perm h0enum
    exact ⟨fun h1 => h.1 h1, fun e1 h1 h2 h3 h4 => h.2 e1 h1 h2 h3 h4⟩

/-- Witness for the amended C4: the mock rejects `ARCHIVED` and then
`FINISHED`; both functions substitute once and fail with the raw second
error after exactly two requests. -/
theorem enum_fallback_once_amended_witness :
    Radar.setCheckOutNow
      (fun ctr _ => if ctr == 0
        then ⟨none, some ⟨"invalid input value for enum mass_checkin_status: \"ARCHIVED\"",
          none⟩⟩
        else ⟨none, some ⟨"invalid input value for enum mass_checkin_status: \"FINISHED\"",
          none⟩⟩)
      "u1" "mass_checkins" "row1" "NOW" =
      (.error "invalid input value for enum mass_checkin_status: \"FINISHED\"",
       [.update "mass_checkins"
          [("status", JsVal.s "ARCHIVED"), ("archived_at", JsVal.s "NOW"),
           ("updated_at", JsVal.s "NOW")]
          [("id", JsVal.s "row1"), ("user_id", JsVal.s "u1")],
        .update "mass_checkins"
          [("status", JsVal.s "FINISHED"), ("archived_at", JsVal.s "NOW"),
           ("updated_at", JsVal.s "NOW")]
          [("id", JsVal.s "row1"), ("user_id", JsVal.s "u1")]]) ∧
    Script.archiveCheckInsByUser
      (fun ctr _ => if ctr == 0
        then ⟨none, some ⟨"invalid input value for enum mass_checkin_status: \"ARCHIVED\"",
          none⟩⟩
        else ⟨none, some ⟨"invalid input value for enum mass_checkin_status: \"FINISHED\"",
          none⟩⟩)
      "mass_checkins" "u1" "NOW" =
      ({ ok := false, skipped := false, permission := false,
         error := some (.server
           ⟨"invalid input value for enum mass_checkin_status: \"FINISHED\"", none⟩) },
       [.update "mass_checkins"
          [("status", JsVal.s "ARCHIVED"), ("archived_at", JsVal.s "NOW"),
           ("updated_at", JsVal.s "NOW")]
          [("user_id", JsVal.s "u1"), ("status", JsVal.s "ACTIVE")],
        .update "mass_checkins"
          [("status", JsVal.s "FINISHED"), ("archived_at", JsVal.s "NOW"),
           ("updated_at", JsVal.s "NOW")]
          [("user_id", JsVal.s "u1"), ("status", JsVal.s "ACTIVE")]]) := by
  constructor
  · exact ((enum_fallback_once_amended.1
      (fun ctr _ => if ctr == 0
        then ⟨none, some ⟨"invalid input value for enum mass_checkin_status: \"ARCHIVED\"",
          none⟩⟩
        else ⟨none, some ⟨"invalid input value for enum mass_checkin_status: \"FINISHED\"",
          none⟩⟩)
      "mass_checkins" "row1" "u1" "NOW"
      ⟨"invalid input value for enum mass_checkin_status: \"ARCHIVED\"", none⟩
      rfl (by decide) (by decide)).2
      ⟨"invalid input value for enum mass_checkin_status: \"FINISHED\"", none⟩
      rfl (by decide) (by decide))
  · exact ((enum_fallback_once_amended.2
      (fun ctr _ => if ctr == 0
        then ⟨none, some ⟨"invalid input value for enum mass_checkin_status: \"ARCHIVED\"",
          none⟩⟩
        else ⟨none, some ⟨"invalid input value for enum mass_checkin_status: \"FINISHED\"",
          none⟩⟩)
      "mass_checkins" "u1" "NOW"
      ⟨"invalid input value for enum mass_checkin_status: \"ARCHIVED\"", none⟩
      rfl (by decide) (by decide) (by decide)).2
      ⟨"invalid input value for enum mass_checkin_status: \"FINISHED\"", none⟩
      rfl (by decide) (by decide) (by decide))

namespace Radar

/-- Every request issued by one invocation of the page's insert loop is
an insert against that invocation's table (with its select option). -/
theorem insertGo_calls_shape (server : Server) (table : String) (sel : Option String) :
    ∀ (fuel ctr : Nat) (w : Payload),
      ∀ q ∈ (insertGo server table sel fuel ctr w).2, ∃ b, q = .insert table b sel := by
  intro fuel
  induction fuel with
  | zero => intro ctr w q hq; simp [insertGo] at hq
  | succ fuel ih =>
    intro ctr w q hq
    simp only [insertGo] at hq
    cases herr : (server ctr (.insert table w sel)).error with
    | none =>
      rw [herr] at hq
      simp at hq
      exact ⟨w, hq⟩
    | some e =>
      rw [herr] at hq
      simp only at hq
      by_cases hdup : isDuplicateError e.message = true
      · simp [hdup] at hq
        exact ⟨w, hq⟩
      · simp only [hdup, Bool.false_eq_true, if_false] at hq
        cases hext : extractMissingColumnName e.message with
        | none =>
          rw [hext] at hq
          simp at hq
          exact ⟨w, hq⟩
        | some col =>
          rw [hext] at hq
          simp only at hq
          by_cases hcont : (hasKey w col && isMissingColumnError e.message) = true
          · simp only [hcont, if_true, List.mem_cons] at hq
            cases hq with
            | inl h => exact ⟨w, h⟩
            | inr h => exact ih (ctr + 1) (deleteKey w col) q h
          · simp only [hcont, Bool.false_eq_true, if_false] at hq
            simp at hq
            exact ⟨w, hq⟩

end Radar

/-- C6 — Generation fallback consistency of `createRadarEvent`: when the
legacy insert into `radar_events` succeeds (with a truthy id), the
dependent HOST-participant insert of the same logical operation targets
`radar_participants` (every request of that dependent invocation does);
when creation instead succeeds against the fallback `radar_events_v2`
table, the dependent participant insert targets `radar_participants_v2`
— never a mix. -/
theorem generation_fallback_consistency :
    ∀ (server : Server) (userId churchId : String) (churchName : Option String)
      (title description startsAtIso endsAtIso : String) (maxParticipants : Option Int)
      (allowMemberInvite requireHostApproval : Bool) (massScheduleId : Option String),
      let legacy := Radar.insertGo server "radar_events" (some "id") 8 0
        (Radar.legacyEventPayload userId churchId churchName title description startsAtIso
          maxParticipants allowMemberInvite requireHostApproval massScheduleId)
      let hostL := Radar.insertGo server "radar_participants" none 8 legacy.2.length
        (Radar.hostParticipantPayload (Radar.insertedId legacy.1) userId)
      let v2 := Radar.insertGo server "radar_events_v2" (some "id") 8 legacy.2.length
        (Radar.v2EventPayload userId churchId title description startsAtIso endsAtIso
          maxParticipants allowMemberInvite requireHostApproval massScheduleId)
      let hostV := Radar.insertGo server "radar_participants_v2" none 8
        (legacy.2.length + v2.2.length)
        (Radar.hostParticipantPayload (Radar.insertedId v2.1) userId)
      (Radar.insertOkWithId legacy.1 = true →
        Radar.createRadarEvent server userId churchId churchName title description
            startsAtIso endsAtIso maxParticipants allowMemberInvite requireHostApproval
            massScheduleId =
          (.ok (Radar.insertedId legacy.1), legacy.2 ++ hostL.2) ∧
        (∀ q ∈ hostL.2, ∃ b, q = .insert "radar_participants" b none)) ∧
      (Radar.insertOkWithId legacy.1 = false →
        Radar.insertOkWithId v2.1 = true →
        Radar.createRadarEvent server userId churchId churchName title description
            startsAtIso endsAtIso maxParticipants allowMemberInvite requireHostApproval
            massScheduleId =
          (.ok (Radar.insertedId v2.1), legacy.2 ++ v2.2 ++ hostV.2) ∧
        (∀ q ∈ hostV.2, ∃ b, q = .insert "radar_participants_v2" b none)) := by
  intro server userId churchId churchName title description startsAtIso endsAtIso
    maxParticipants allowMemberInvite requireHostApproval massScheduleId
  intro legacy hostL v2 hostV
  constructor
  · intro hok
    constructor
    · simp only [Radar.createRadarEvent, hok, if_true]
    · exact fun q hq => Radar.insertGo_calls_shape server "radar_participants" none
        8 legacy.2.length _ q hq
  · intro hnot hok2
    constructor
    · simp only [Radar.createRadarEvent, hnot, hok2, Bool.false_eq_true, if_false, if_true]
    · exact fun q hq => Radar.insertGo_calls_shape server "radar_participants_v2" none
        8 (legacy.2.length + v2.2.length) _ q hq

/-- Witness for C6: one mock where the legacy event insert succeeds (the
participant row goes to `radar_participants`) and one where the legacy
table is missing and the v2 insert succeeds (the participant row goes to
`radar_participants_v2`). -/
theorem generation_fallback_consistency_witness :
    Radar.createRadarEvent
      (fun ctr _ => if ctr == 0 then ⟨some [("id", JsVal.s "E1")], none⟩ else ⟨none, none⟩)
      "u1" "c1" none "T" "D" "S" "E" none true false none =
      (.ok "E1",
       [DbReq.insert "radar_events"
          [("title", JsVal.s "T"), ("description", JsVal.s "D"),
           ("church_id", JsVal.s "c1"), ("church_name", JsVal.s "Gereja"),
           ("event_time", JsVal.s "S"), ("creator_id", JsVal.s "u1"),
           ("visibility", JsVal.s "PUBLIC"), ("status", JsVal.s "PUBLISHED"),
           ("allow_member_invite", JsVal.b true),
           ("require_host_approval", JsVal.b false),
           ("max_participants", JsVal.undef)] (some "id"),
        DbReq.insert "radar_participants"
          [("radar_id", JsVal.s "E1"), ("user_id", JsVal.s "u1"),
           ("role", JsVal.s "HOST"), ("status", JsVal.s "JOINED")] none]) ∧
    Radar.createRadarEvent
      (fun ctr _ => if ctr == 0
        then ⟨none, some ⟨"relation \"radar_events\" does not exist", none⟩⟩
        else if ctr == 1 then ⟨some [("id", JsVal.s "E2")], none⟩ else ⟨none, none⟩)
      "u1" "c1" none "T" "D" "S" "E" none true false none =
      (.ok "E2",
       [DbReq.insert "radar_events"
          [("title", JsVal.s "T"), ("description", JsVal.s "D"),
           ("church_id", JsVal.s "c1"), ("church_name", JsVal.s "Gereja"),
           ("event_time", JsVal.s "S"), ("creator_id", JsVal.s "u1"),
           ("visibility", JsVal.s "PUBLIC"), ("status", JsVal.s "PUBLISHED"),
           ("allow_member_invite", JsVal.b true),
           ("require_host_approval", JsVal.b false),
           ("max_participants", JsVal.undef)] (some "id"),
        DbReq.insert "radar_events_v2"
          [("title", JsVal.s "T"), ("description", JsVal.s "D"),
           ("church_id", JsVal.s "c1"), ("creator_id", JsVal.s "u1"),
           ("event_starts_at_utc", JsVal.s "S"), ("event_ends_at_utc", JsVal.s "E"),
           ("status", JsVal.s "PUBLISHED"), ("allow_member_invite", JsVal.b true),
           ("require_host_approval", JsVal.b false), ("join_mode", JsVal.s "OPEN"),
           ("max_participants", JsVal.undef)] (some "id"),
        DbReq.insert "radar_participants_v2"
          [("radar_id", JsVal.s "E2"), ("user_id", JsVal.s "u1"),
           ("role", JsVal.s "HOST"), ("status", JsVal.s "JOINED")] none]) := by
  constructor
  · exact Eq.trans
      (((generation_fallback_consistency
        (fun ctr _ => if ctr == 0 then ⟨some [("id", JsVal.s "E1")], none⟩ else ⟨none, none⟩)
        "u1" "c1" none "T" "D" "S" "E" none true false none).1 (by decide)).1)
      rfl
  · exact Eq.trans
      (((generation_fallback_consistency
        (fun ctr _ => if ctr == 0
          then ⟨none, some ⟨"relation \"radar_events\" does not exist", none⟩⟩
          else if ctr == 1 then ⟨some [("id", JsVal.s "E2")], none⟩ else ⟨none, none⟩)
        "u1" "c1" none "T" "D" "S" "E" none true false none).2 (by decide) (by decide)).1)
      rfl

namespace Radar

/-- The direct-insert fallback of `joinRadarEvent`, when the event-policy
row is present: the primary-generation participant insert fails, the one
against the other generation succeeds, and the membership status `st` is
returned. -/
theorem joinDirect_second_table (server : Server) (radarId userId : String)
    (source : RadarSource) (row : Payload) (st : String)
    (hst : (if lookupKey row "require_host_approval" == some (JsVal.b true)
      then "PENDING" else "JOINED") = st)
    (hfail : (insertGo server (participantTableOf source) none 8 0
        (joinParticipantPayload radarId userId st)).1.error ≠ none)
    (hsucc : (insertGo server (otherParticipantTableOf source) none 8
        (insertGo server (participantTableOf source) none 8 0
          (joinParticipantPayload radarId userId st)).2.length
        (joinParticipantPayload radarId userId st)).1.error = none) :
    joinRadarEvent.joinDirect server radarId userId source (some row) =
      (.ok st,
       (insertGo server (participantTableOf source) none 8 0
         (joinParticipantPayload radarId userId st)).2 ++
       (insertGo server (otherParticipantTableOf source) none 8
         (insertGo server (participantTableOf source) none 8 0
           (joinParticipantPayload radarId userId st)).2.length
         (joinParticipantPayload radarId userId st)).2) := by
  have hr1 : ((insertGo server (participantTableOf source) none 8 0
      (joinParticipantPayload radarId userId st)).1.error == none) = false :=
    beq_eq_false_iff_ne.mpr hfail
  have hr2 : ((insertGo server (otherParticipantTableOf source) none 8
      (insertGo server (participantTableOf source) none 8 0
        (joinParticipantPayload radarId userId st)).2.length
      (joinParticipantPayload radarId userId st)).1.error == none) = true :=
    beq_iff_eq.mpr hsucc
  simp only [joinRadarEvent.joinDirect, Option.some_bind, hst, hr1, hr2,
    Bool.false_eq_true, if_false, if_true]

end Radar

/-- C10 — Implicit claim, cross-generation join fallback: on the
direct-insert path of `joinRadarEvent` (taken when the join RPC fails as
function-missing, permission, not-authenticated or ambiguous), if the
insert into the participant table matching the event's generation fails,
the function retries the same payload against the other generation's
participant table, and if that succeeds it still reports join success —
`PENDING` exactly when the event row's `require_host_approval` is
`true`, otherwise `JOINED`.  The participant row may therefore land in
the opposite generation from its event row. -/
theorem cross_generation_join_fallback :
    ∀ (rpcResp : RpcResp) (policyResp policyFallbackResp : SBResp) (server : Server)
      (radarId userId : String) (source : RadarSource) (e : PgError) (row : Payload),
      rpcResp.error = some e →
      (Radar.isFunctionMissingError e.message = true ∨
       Radar.isPermissionError e.message = true ∨
       Radar.isNotAuthenticatedError e.message = true ∨
       Radar.isAmbiguousReferenceError e.message = true) →
      policyResp.error = none →
      policyResp.data = some row →
      let status := if lookupKey row "require_host_approval" == some (.b true)
        then "PENDING" else "JOINED"
      let r1 := Radar.insertGo server (Radar.participantTableOf source) none 8 0
        (Radar.joinParticipantPayload radarId userId status)
      let r2 := Radar.insertGo server (Radar.otherParticipantTableOf source) none 8
        r1.2.length (Radar.joinParticipantPayload radarId userId status)
      r1.1.error ≠ none →
      r2.1.error = none →
      Radar.joinRadarEvent rpcResp policyResp policyFallbackResp server radarId userId
          source =
        (.ok status, r1.2 ++ r2.2) ∧
      (∀ q ∈ r2.2, ∃ b, q = .insert (Radar.otherParticipantTableOf source) b none) ∧
      (status = "PENDING" ↔ lookupKey row "require_host_approval" = some (.b true)) := by
  intro rpcResp policyResp policyFallbackResp server radarId userId source e row
    hrpc hkind hpol hrow status r1 r2 hfail hsucc
  have hdirect :
      Radar.joinRadarEvent.joinDirect server radarId userId source policyResp.data =
        (.ok status, r1.2 ++ r2.2) := by
    rw [hrow]
    exact Radar.joinDirect_second_table server radarId userId source row status rfl
      hfail hsucc
  refine ⟨?_, ?_, ?_⟩
  · simp only [Radar.joinRadarEvent, hrpc, hpol]
    cases hc : (!Radar.isFunctionMissingError e.message &&
        !Radar.isPermissionError e.message && !Radar.isNotAuthenticatedError e.message) with
    | false =>
      simp only [Bool.false_eq_true, if_false]
      exact hdirect
    | true =>
      have hd : Radar.isAmbiguousReferenceError e.message = true := by
        simp only [Bool.and_eq_true, Bool.not_eq_true'] at hc
        rcases hkind with h | h | h | h
        · rw [hc.1.1] at h; cases h
        · rw [hc.1.2] at h; cases h
        · rw [hc.2] at h; cases h
        · exact h
      simp only [if_true, hd, Bool.not_true, Bool.false_eq_true, if_false]
      exact hdirect
  · exact fun q hq => Radar.insertGo_calls_shape server
      (Radar.otherParticipantTableOf source) none 8 r1.2.length _ q hq
  · cases hl : (lookupKey row "require_host_approval" == some (JsVal.b true)) with
    | true =>
      have hs : status = "PENDING" := by
        show (if lookupKey row "require_host_approval" == some (JsVal.b true)
          then "PENDING" else "JOINED") = "PENDING"
        rw [hl]
        rfl
      exact ⟨fun _ => beq_iff_eq.mp hl, fun _ => hs⟩
    | false =>
      have hs : status = "JOINED" := by
        show (if lookupKey row "require_host_approval" == some (JsVal.b true)
          then "PENDING" else "JOINED") = "JOINED"
        rw [hl]
        rfl
      rw [hs]
      constructor
      · intro h; exact absurd h (by decide)
      · intro h; rw [h] at hl; simp at hl

/-- Witness for C10: the join RPC is missing, the event row requires
host approval, the legacy participant insert fails and the v2 insert
succeeds; the join still reports `PENDING`, with the participant row in
the opposite generation. -/
theorem cross_generation_join_fallback_witness :
    Radar.joinRadarEvent
      ⟨.nil, some ⟨"Could not find the function public.join_radar_event", none⟩⟩
      ⟨some [("id", JsVal.s "r1"), ("require_host_approval", JsVal.b true)], none⟩
      ⟨none, none⟩
      (fun ctr _ => if ctr == 0 then ⟨none, some ⟨"boom", none⟩⟩ else ⟨none, none⟩)
      "r1" "u2" .legacy =
      (.ok "PENDING",
       [DbReq.insert "radar_participants"
          [("radar_id", JsVal.s "r1"), ("user_id", JsVal.s "u2"),
           ("role", JsVal.s "MEMBER"), ("status", JsVal.s "PENDING")] none,
        DbReq.insert "radar_participants_v2"
          [("radar_id", JsVal.s "r1"), ("user_id", JsVal.s "u2"),
           ("role", JsVal.s "MEMBER"), ("status", JsVal.s "PENDING")] none]) := by
  exact Eq.trans
    ((cross_generation_join_fallback
      ⟨.nil, some ⟨"Could not find the function public.join_radar_event", none⟩⟩
      ⟨some [("id", JsVal.s "r1"), ("require_host_approval", JsVal.b true)], none⟩
      ⟨none, none⟩
      (fun ctr _ => if ctr == 0 then ⟨none, some ⟨"boom", none⟩⟩ else ⟨none, none⟩)
      "r1" "u2" .legacy
      ⟨"Could not find the function public.join_radar_event", none⟩
      [("id", JsVal.s "r1"), ("require_host_approval", JsVal.b true)]
      rfl (Or.inl (by decide)) rfl rfl (by decide) rfl).1)
    rfl

/-- `deleteKey` on a cons cell. -/
theorem deleteKey_cons (p : String × JsVal) (rest : Payload) (c : String) :
    deleteKey (p :: rest) c =
      if p.1 != c then p :: deleteKey rest c else deleteKey rest c := by
  cases hpc : p.1 != c <;> simp [deleteKey, List.filter_cons, hpc]

/-- After deleting `c`, looking `c` up fails. -/
theorem lookupKey_deleteKey_self (c : String) :
    ∀ (w : Payload), lookupKey (deleteKey w c) c = none := by
  intro w
  induction w with
  | nil => rfl
  | cons p rest ih =>
    rw [deleteKey_cons]
    cases hpc : p.1 != c with
    | true =>
      rw [if_pos rfl, lookupKey_cons]
      have hne : (p.1 == c) = false := by
        cases h : p.1 == c
        · rfl
        · rw [bne] at hpc; rw [h] at hpc; cases hpc
      rw [hne]
      simpa using ih
    | false =>
      rw [if_neg Bool.false_ne_true]
      exact ih

/-- A key surviving `deleteKey` had the same value before. -/
theorem lookupKey_deleteKey_some (c k : String) (v : JsVal) :
    ∀ (w : Payload), lookupKey (deleteKey w c) k = some v → lookupKey w k = some v := by
  intro w
  induction w with
  | nil => intro h; simpa [deleteKey] using h
  | cons p rest ih =>
    intro h
    rw [deleteKey_cons] at h
    cases hpc : p.1 != c with
    | true =>
      rw [if_pos hpc, lookupKey_cons] at h
      rw [lookupKey_cons]
      cases hpk : p.1 == k with
      | true => rw [hpk] at h; simpa using h
      | false => rw [hpk] at h; simp only [Bool.false_eq_true, if_false] at h ⊢; exact ih h
    | false =>
      rw [if_neg (by simp [hpc])] at h
      rw [lookupKey_cons]
      cases hpk : p.1 == k with
      | true =>
        have hkc : k = c := by
          have h1 : p.1 = k := beq_iff_eq.mp hpk
          have h2 : p.1 = c := by
            have := hpc
            rw [bne] at this
            cases hb : p.1 == c
            · rw [hb] at this; cases this
            · exact beq_iff_eq.mp hb
          rw [← h1, h2]
        rw [hkc] at h
        rw [lookupKey_deleteKey_self] at h
        cases h
      | false =>
        simp only [Bool.false_eq_true, if_false]
        exact ih h

/-- An entry found by `lookupKey` is an entry of the payload. -/
theorem lookupKey_some_mem (k : String) (v : JsVal) :
    ∀ (w : Payload), lookupKey w k = some v → (k, v) ∈ w := by
  intro w
  induction w with
  | nil => intro h; cases h
  | cons p rest ih =>
    intro h
    rw [lookupKey_cons] at h
    cases hpk : p.1 == k with
    | true =>
      rw [hpk] at h
      simp only [if_true, Option.some.injEq] at h
      have h1 : p.1 = k := beq_iff_eq.mp hpk
      have : p = (k, v) := by
        cases p
        simp only at h1 h
        rw [h1, h]
      rw [← this]
      exact List.mem_cons_self _ _
    | false =>
      rw [hpk] at h
      simp only [Bool.false_eq_true, if_false] at h
      exact List.mem_cons_of_mem _ (ih h)

/-- A row whose `status` is not `PENDING` is untouched by an update whose
matchers require `status = 'PENDING'`. -/
theorem updateRowIfMatch_skips (b m row : Payload) (st : String)
    (hm : lookupKey m "status" = some (.s "PENDING"))
    (hrow : lookupKey row "status" = some (.s st))
    (hne : st ≠ "PENDING") :
    updateRowIfMatch b m row = row := by
  have hmem : ("status", JsVal.s "PENDING") ∈ m := lookupKey_some_mem _ _ m hm
  have hfalse : matchersHold m row = false := by
    cases hall : matchersHold m row with
    | false => rfl
    | true =>
      have := List.all_eq_true.mp hall _ hmem
      rw [hrow] at this
      have : JsVal.s st = JsVal.s "PENDING" := by
        have h2 := beq_iff_eq.mp this
        exact Option.some.inj h2
      exact absurd (by injection this) hne
  simp [updateRowIfMatch, hfalse]

namespace RadarDetail

/-- Every request of one `updateWithColumnFallback` invocation is an
update against that invocation's table with its (never-stripped)
matchers, and its body only carries key/value pairs of the original
payload (columns are only ever deleted). -/
theorem updateGo_calls (server : Server) (table : String) (matchers : Payload) :
    ∀ (fuel ctr : Nat) (w : Payload),
      ∀ q ∈ (updateGo server table matchers fuel ctr w).2,
        ∃ b, q = .update table b matchers ∧
          (∀ k v, lookupKey b k = some v → lookupKey w k = some v) := by
  intro fuel
  induction fuel with
  | zero => intro ctr w q hq; simp [updateGo] at hq
  | succ fuel ih =>
    intro ctr w q hq
    simp only [updateGo] at hq
    cases herr : (server ctr (.update table w matchers)).error with
    | none =>
      rw [herr] at hq
      simp at hq
      exact ⟨w, hq, fun _ _ h => h⟩
    | some e =>
      rw [herr] at hq
      simp only at hq
      cases hext : extractMissingColumnName e.message with
      | none =>
        rw [hext] at hq
        simp at hq
        exact ⟨w, hq, fun _ _ h => h⟩
      | some col =>
        rw [hext] at hq
        simp only at hq
        by_cases hcont : (hasKey w col && isMissingColumnError e.message) = true
        · simp only [hcont, if_true, List.mem_cons] at hq
          cases hq with
          | inl h => exact ⟨w, h, fun _ _ hh => hh⟩
          | inr h =>
            obtain ⟨b, hb, hsub⟩ := ih (ctr + 1) (deleteKey w col) q h
            exact ⟨b, hb, fun k v hv => lookupKey_deleteKey_some col k v w (hsub k v hv)⟩
        · simp only [hcont, Bool.false_eq_true, if_false] at hq
          simp at hq
          exact ⟨w, hq, fun _ _ h => h⟩

/-- The `radar/[id]/page.tsx` insert/upsert loop never issues an update
request. -/
theorem insertGo_no_update (server : Server) (table : String) (oc : Option String) :
    ∀ (fuel ctr : Nat) (w : Payload) (t : String) (b m : Payload),
      DbReq.update t b m ∉ (insertGo server table oc fuel ctr w).2 := by
  intro fuel
  induction fuel with
  | zero => intro ctr w t b m h; simp [insertGo] at h
  | succ fuel ih =>
    intro ctr w t b m hq
    rcases oc with _ | o
    ·
      simp only [insertGo] at hq
      cases herr : (server ctr (DbReq.insert table w none)).error with
      | none =>
        rw [herr] at hq
        simp at hq
      | some e =>
        rw [herr] at hq
        simp only at hq
        cases hext : extractMissingColumnName e.message with
        | none => rw [hext] at hq; simp at hq
        | some col =>
          rw [hext] at hq
          simp only at hq
          by_cases hcont : (hasKey w col && isMissingColumnError e.message) = true
          · simp only [hcont, if_true, List.mem_cons] at hq
            cases hq with
            | inl h => simp at h
            | inr h => exact ih (ctr + 1) (deleteKey w col) t b m h
          · simp only [hcont, Bool.false_eq_true, if_false] at hq
            simp at hq
    ·
      simp only [insertGo] at hq
      cases herr : (server ctr (DbReq.upsert table w o)).error with
      | none =>
        rw [herr] at hq
        simp at hq
      | some e =>
        rw [herr] at hq
        simp only at hq
        cases hext : extractMissingColumnName e.message with
        | none => rw [hext] at hq; simp at hq
        | some col =>
          rw [hext] at hq
          simp only at hq
          by_cases hcont : (hasKey w col && isMissingColumnError e.message) = true
          · simp only [hcont, if_true, List.mem_cons] at hq
            cases hq with
            | inl h => simp at h
            | inr h => exact ih (ctr + 1) (deleteKey w col) t b m h
          · simp only [hcont, Bool.false_eq_true, if_false] at hq
            simp at hq

end RadarDetail

set_option maxHeartbeats 2000000 in
/-- C8 — Membership state machine (host decision): every participant-row
update issued by `updateParticipantDecision` carries the matcher
`status = 'PENDING'` (matchers are never stripped by the update shim),
and its body sets `status` — when it still carries it — to `JOINED` on
approve and `REJECTED` on reject; consequently, under the filtered
`update` semantics of the external query layer, a row whose status is
`JOINED`, `LEFT` or `REJECTED` is never changed by any update this
function issues. -/
theorem membership_pending_guard :
    ∀ (withChatRoom fallbackSel chatGroup : SBResp) (server : Server)
      (radarId targetUserId actorId : String) (source : RadarSource) (approve : Bool)
      (nowIso : String) (t : String) (b m : Payload),
      DbReq.update t b m ∈
        (RadarDetail.updateParticipantDecision withChatRoom fallbackSel chatGroup server
          radarId targetUserId actorId source approve nowIso).2 →
      lookupKey m "status" = some (.s "PENDING") ∧
      (∀ v, lookupKey b "status" = some v →
        v = .s (if approve then "JOINED" else "REJECTED")) ∧
      (∀ (row : Payload) (st : String), lookupKey row "status" = some (.s st) →
        (st = "JOINED" ∨ st = "LEFT" ∨ st = "REJECTED") →
        updateRowIfMatch b m row = row) := by
  intro withChatRoom fallbackSel chatGroup server radarId targetUserId actorId source
    approve nowIso t b m hq
  have noIns : ∀ (tb : String) (oc : Option String) (ctr : Nat) (w : Payload),
      DbReq.update t b m ∉ (RadarDetail.insertGo server tb oc 8 ctr w).2 :=
    fun tb oc ctr w => RadarDetail.insertGo_no_update server tb oc 8 ctr w t b m
  have main : ∀ (ns tbl : String) (ctr : Nat) (w0 : Payload),
      DbReq.update t b m ∈ (RadarDetail.updateGo server tbl
        [("radar_id", JsVal.s radarId), ("user_id", JsVal.s targetUserId),
         ("status", JsVal.s "PENDING")] 8 ctr w0).2 →
      lookupKey w0 "status" = some (.s ns) →
      lookupKey m "status" = some (.s "PENDING") ∧
      (∀ v, lookupKey b "status" = some v → v = .s ns) ∧
      (∀ (row : Payload) (st : String), lookupKey row "status" = some (.s st) →
        (st = "JOINED" ∨ st = "LEFT" ∨ st = "REJECTED") →
        updateRowIfMatch b m row = row) := by
    intro ns tbl ctr w0 hmem hw0
    obtain ⟨b2, hbeq, hsub⟩ := RadarDetail.updateGo_calls server tbl _ 8 ctr w0 _ hmem
    injection hbeq with ht hb hm
    subst hb
    subst hm
    have hstat : lookupKey
        [("radar_id", JsVal.s radarId), ("user_id", JsVal.s targetUserId),
         ("status", JsVal.s "PENDING")] "status" = some (JsVal.s "PENDING") := rfl
    refine ⟨hstat, ?_, ?_⟩
    · intro v hv
      have h2 := hsub "status" v hv
      rw [hw0] at h2
      exact (Option.some.inj h2).symm
    · intro row st hrow hst
      refine updateRowIfMatch_skips b _ row st hstat hrow ?_
      rcases hst with h | h | h <;> rw [h] <;> decide
  cases approve <;>
    (simp only [RadarDetail.updateParticipantDecision] at hq
     repeat
       first
       | exact absurd hq (List.not_mem_nil _)
       | exact absurd hq (noIns _ _ _ _)
       | exact main _ _ _ _ hq (by exact rfl)
       | (rcases List.mem_append.mp hq with hq | hq)
       | simp only [reduceIte] at hq
       | split at hq)

/-- Witness for C8, at a concrete approve run (host approves a pending
member on the legacy generation): the issued update's matchers require
`PENDING`, and a row already `JOINED` is untouched by it. -/
theorem membership_pending_guard_witness :
    lookupKey [("radar_id", JsVal.s "r1"), ("user_id", JsVal.s "u2"),
      ("status", JsVal.s "PENDING")] "status" = some (JsVal.s "PENDING") ∧
    updateRowIfMatch
      [("status", JsVal.s "JOINED"), ("role", JsVal.s "MEMBER"),
       ("joined_at", JsVal.s "NOW"), ("left_at", JsVal.null), ("kicked_at", JsVal.null)]
      [("radar_id", JsVal.s "r1"), ("user_id", JsVal.s "u2"),
       ("status", JsVal.s "PENDING")]
      [("status", JsVal.s "JOINED")] = [("status", JsVal.s "JOINED")] := by
  have h := membership_pending_guard
    ⟨some [("id", JsVal.s "r1"), ("creator_id", JsVal.s "host1"),
      ("chat_room_id", JsVal.s "chat9")], none⟩
    ⟨none, none⟩ ⟨none, none⟩
    (fun _ _ => ⟨none, none⟩)
    "r1" "u2" "host1" .legacy true "NOW"
    "radar_participants"
    [("status", JsVal.s "JOINED"), ("role", JsVal.s "MEMBER"),
     ("joined_at", JsVal.s "NOW"), ("left_at", JsVal.null), ("kicked_at", JsVal.null)]
    [("radar_id", JsVal.s "r1"), ("user_id", JsVal.s "u2"),
     ("status", JsVal.s "PENDING")]
    (by decide)
  exact ⟨h.1, h.2.2 [("status", JsVal.s "JOINED")] "JOINED" rfl (Or.inl rfl)⟩
